import Mathlib

set_option maxHeartbeats 1000000

/-! Shallow embedding of the rdc server (github.com/brice-v/rdc): the keyspace
engine of `server/replies.go`, the command dispatcher `ExecuteCommand` of
`server/main.go`, and the RESP reader of the resp package.  Go maps are
modelled as association lists, Go strings as Lean `String` (the claims only
involve ASCII data, where byte length and character length agree), and the
`sc/list` doubly linked list package — which is not part of this repository's
sources — is modelled from the spec as a sequence (`List String`). -/

namespace Rdc

/-- Lookup in an association list, modelling a Go map read `m[k]`. -/
def mget {α : Type} : List (String × α) → String → Option α
  | [], _ => none
  | (k1, v1) :: t, k => if k1 = k then some v1 else mget t k

/-- Update or insert, modelling a Go map write `m[k] = v`. -/
def mset {α : Type} : List (String × α) → String → α → List (String × α)
  | [], k, v => [(k, v)]
  | (k1, v1) :: t, k, v => if k1 = k then (k1, v) :: t else (k1, v1) :: mset t k v

/-- Removal, modelling Go `delete(m, k)`. -/
def mdel {α : Type} : List (String × α) → String → List (String × α)
  | [], _ => []
  | (k1, v1) :: t, k => if k1 = k then mdel t k else (k1, v1) :: mdel t k

/-- Accumulate decimal digits, failing on any non-digit character. -/
def readDigits : List Char → Nat → Option Nat
  | [], acc => some acc
  | c :: cs, acc =>
    if c.isDigit then readDigits cs (acc * 10 + (c.toNat - 48)) else none

/-- Model of Go `strconv.Atoi`: an optional sign followed by at least one
decimal digit; anything else is a parse error.  (Overflow of 64-bit integers
is not modelled; no claim involves such magnitudes.) -/
def atoi? (s : String) : Option Int :=
  match s.toList with
  | [] => none
  | ['-'] => none
  | ['+'] => none
  | '-' :: cs => (readDigits cs 0).map (fun n => -(n : Int))
  | '+' :: cs => (readDigits cs 0).map (fun n => (n : Int))
  | cs => (readDigits cs 0).map (fun n => (n : Int))

/-- Insert a string into a sorted list (helper for `sort.Strings`). -/
def insStr (x : String) : List String → List String
  | [] => [x]
  | y :: t => if x ≤ y then x :: y :: t else y :: insStr x t

/-- Model of Go `sort.Strings` (insertion sort; the order relation is the
lexicographic order on strings in both). -/
def sortStrings : List String → List String
  | [] => []
  | x :: t => insStr x (sortStrings t)

/-- Modelled from the spec: the gobwas/glob dependency is not part of this
repository's sources; shell-glob semantics with `*` (any sequence) and `?`
(one character), literal otherwise. -/
def globMatch : List Char → List Char → Bool
  | [], [] => true
  | '*' :: ps, [] => globMatch ps []
  | '*' :: ps, c :: cs => globMatch ps (c :: cs) || globMatch ('*' :: ps) cs
  | '?' :: ps, _ :: cs => globMatch ps cs
  | p :: ps, c :: cs => p = c && globMatch ps cs
  | _ :: _, [] => false
  | [], _ :: _ => false
termination_by ps cs => (cs.length, ps.length)

/-- The `dbTyp` constants of `replies.go` other than `tNone`; absence of a
type-index entry plays the role of `tNone`. -/
inductive DTyp where
  | tString
  | tList
  | tSet
deriving DecidableEq

/-- The wire word for a type, as `getDBType` returns it. -/
def typName : Option DTyp → String
  | some .tString => "string"
  | some .tList => "list"
  | some .tSet => "set"
  | none => "none"

/-- The `DB` struct: key/value store, set store, list store and type index. -/
structure DB where
  kv : List (String × String)
  s : List (String × List String)
  ll : List (String × List String)
  tstore : List (String × DTyp)

/-- Model of `NewDB`: a database with all fields initialized empty. -/
def NewDB : DB := ⟨[], [], [], []⟩

/-- The mutable server state: the select pointer `sp` and the ten databases,
plus `lastsave`.  In the Go code `sp` is an `int64`, but it is initialized to
0 and only ever written by SELECT after a `0 ≤ n ≤ 9` guard, so it is
represented as `Fin 10`; the connection table and statistics counters play no
role in any claim and are omitted. -/
structure ServerState where
  sp : Fin 10
  store : Fin 10 → DB
  lastsave : Int

/-- The database currently pointed at, `rs.store[rs.sp]`. -/
def ServerState.cur (s : ServerState) : DB := s.store s.sp

/-- Replace the current database (used by every mutation of `rs.store[rs.sp]`). -/
def ServerState.setCur (s : ServerState) (d : DB) : ServerState :=
  { s with store := fun j => if j = s.sp then d else s.store j }

/-- Model of `getDBType`: the type-index entry for a key (`none` models `tNone`). -/
def ServerState.getDBType (s : ServerState) (key : String) : Option DTyp :=
  mget s.cur.tstore key

/-- Model of `set`: store a string value and record the type as string.  Note the old
container of a key previously holding a list or a set is not removed. -/
def ServerState.set (s : ServerState) (key value : String) : ServerState :=
  s.setCur { s.cur with kv := mset s.cur.kv key value,
                        tstore := mset s.cur.tstore key .tString }

/-- Model of `get`: the stored string and a presence flag; a missing key yields
`("-1", false)` exactly as in the source. -/
def ServerState.get (s : ServerState) (key : String) : String × Bool :=
  match mget s.cur.kv key with
  | some v => (v, true)
  | none => ("-1", false)

/-- Model of `del`: remove the type-index entry, then remove the key from the first of
the three typed maps that holds it (in the order kv, s, ll). -/
def ServerState.del (s : ServerState) (key : String) : ServerState × Bool :=
  let d := s.cur
  let d1 : DB := { d with tstore := mdel d.tstore key }
  match mget d1.kv key with
  | some _ => (s.setCur { d1 with kv := mdel d1.kv key }, true)
  | none =>
    match mget d1.s key with
    | some _ => (s.setCur { d1 with s := mdel d1.s key }, true)
    | none =>
      match mget d1.ll key with
      | some _ => (s.setCur { d1 with ll := mdel d1.ll key }, true)
      | none => (s.setCur d1, false)

/-- Model of `lpush`: record the list type, create the list if absent, push at the
front, and answer the new length. -/
def ServerState.lpush (s : ServerState) (key value : String) : ServerState × String :=
  let d := s.cur
  let nl := value :: (mget d.ll key).getD []
  (s.setCur { d with tstore := mset d.tstore key .tList, ll := mset d.ll key nl },
   toString nl.length)

/-- Model of `rpush`: like `lpush` but pushing at the back. -/
def ServerState.rpush (s : ServerState) (key value : String) : ServerState × String :=
  let d := s.cur
  let nl := (mget d.ll key).getD [] ++ [value]
  (s.setCur { d with tstore := mset d.tstore key .tList, ll := mset d.ll key nl },
   toString nl.length)

/-- Model of `llen`: the length of the list at a key. -/
def ServerState.llen (s : ServerState) (key : String) : String :=
  toString ((mget s.cur.ll key).getD []).length

/-- The `_start` normalization shared by `lrange` and `ltrim`: a negative
start index is replaced by its absolute value (a quirk the spec pins down). -/
def normStart (start : Int) : Int := if start < 0 then -start else start

/-- The `_end` normalization shared by `lrange` and `ltrim`: a negative end
index is offset from the size. -/
def normEnd (size e : Int) : Int := if e < 0 then size + e else e

/-- Model of `lrange`: the elements whose position lies in the normalized inclusive
range. -/
def ServerState.lrange (s : ServerState) (key : String) (start e : Int) : List String :=
  let l := (mget s.cur.ll key).getD []
  let st := normStart start
  let en := normEnd l.length e
  (l.enum.filter (fun p => decide (st ≤ (p.1 : Int)) && decide ((p.1 : Int) ≤ en))).map (·.2)

/-- Model of `lindex`: the element at the (negatively offset) index, or the sentinel
`emptyBulkString` text when out of range, exactly as in the source. -/
def ServerState.lindex (s : ServerState) (key : String) (index : Int) : String :=
  let l := (mget s.cur.ll key).getD []
  let e := if index < 0 then (l.length : Int) + index else index
  match l.enum.find? (fun p => decide ((p.1 : Int) = e)) with
  | some p => p.2
  | none => "$-1\r\n"

/-- Model of `ltrim`: `false` (leaving the state alone) when the normalized start
exceeds the normalized end, else keep exactly the elements in range. -/
def ServerState.ltrim (s : ServerState) (key : String) (start e : Int) : ServerState × Bool :=
  let l := (mget s.cur.ll key).getD []
  let st := normStart start
  let en := normEnd l.length e
  if st > en then (s, false)
  else
    let kept := (l.enum.filter
      (fun p => decide (st ≤ (p.1 : Int)) && decide ((p.1 : Int) ≤ en))).map (·.2)
    (s.setCur { s.cur with ll := mset s.cur.ll key kept }, true)

/-- Model of `lpop`: remove and return the front element.  The empty-list case runs
`Remove(Front())` with a nil element in the external `sc/list` package;
modelled from the spec as returning the empty string with no change.  The
key is left in both the list store and the type index. -/
def ServerState.lpop (s : ServerState) (key : String) : ServerState × String :=
  match mget s.cur.ll key with
  | some (v :: t) => (s.setCur { s.cur with ll := mset s.cur.ll key t }, v)
  | _ => (s, "")

/-- Model of `rpop`: remove and return the back element (same remarks as `lpop`). -/
def ServerState.rpop (s : ServerState) (key : String) : ServerState × String :=
  match mget s.cur.ll key with
  | some (v :: t) =>
    (s.setCur { s.cur with ll := mset s.cur.ll key ((v :: t).dropLast) },
     (v :: t).getLast (by simp))
  | _ => (s, "")

/-- Model of `lset`: insert the value before the element at the index (the source
inserts rather than replaces); `false` when the index is not reached. -/
def ServerState.lset (s : ServerState) (key : String) (index : Int) (val : String) :
    ServerState × Bool :=
  let l := (mget s.cur.ll key).getD []
  if 0 ≤ index ∧ index.toNat < l.length then
    let nl := l.take index.toNat ++ val :: l.drop index.toNat
    (s.setCur { s.cur with ll := mset s.cur.ll key nl }, true)
  else (s, false)

/-- Remove occurrences of `v` from the front, bounded by `lim` when present;
answers the remaining list and the number removed (helper for `lrem`). -/
def lremHead : List String → String → Option Nat → List String × Nat
  | [], _, _ => ([], 0)
  | x :: t, v, lim =>
    match lim with
    | some 0 => (x :: t, 0)
    | _ =>
      if x = v then
        let r := lremHead t v (lim.map (· - 1))
        (r.1, r.2 + 1)
      else
        let r := lremHead t v lim
        (x :: r.1, r.2)

/-- Model of `lrem`: positive count removes from the head, negative from the tail,
zero removes all; answers the number of elements deleted. -/
def ServerState.lrem (s : ServerState) (key : String) (count : Int) (val : String) :
    ServerState × String :=
  let l := (mget s.cur.ll key).getD []
  let r :=
    if count < 0 then
      let r0 := lremHead l.reverse val (some (-count).toNat)
      (r0.1.reverse, r0.2)
    else if count > 0 then lremHead l val (some count.toNat)
    else lremHead l val none
  (s.setCur { s.cur with ll := mset s.cur.ll key r.1 }, toString r.2)

/-- Model of `keys`: the type-index keys matching the glob pattern, sorted.  The
pattern-compilation failure branch of the source cannot occur in the model
(the modelled glob accepts every pattern); no claim exercises it. -/
def ServerState.keys (s : ServerState) (pattern : String) : List String :=
  sortStrings ((s.cur.tstore.map (·.1)).filter
    (fun k => globMatch pattern.toList k.toList))

/-- Model of `random_key`: the first type-index key, or the empty string (the Go map
iteration order is arbitrary; the spec allows any deterministic choice). -/
def ServerState.random_key (s : ServerState) : String :=
  match s.cur.tstore with
  | [] => ""
  | (k, _) :: _ => k

/-- Model of `rename`: move a key's type-index entry and its typed-map entry to the
new name (a no-op when the source key is absent). -/
def ServerState.rename (s : ServerState) (okey nkey : String) : ServerState :=
  match s.getDBType okey with
  | none => s
  | some t =>
    let d := s.cur
    let d1 : DB := { d with tstore := mset (mdel d.tstore okey) nkey t }
    match t with
    | .tString =>
      match mget d1.kv okey with
      | some v => s.setCur { d1 with kv := mdel (mset d1.kv nkey v) okey }
      | none => s.setCur d1
    | .tList =>
      match mget d1.ll okey with
      | some v => s.setCur { d1 with ll := mdel (mset d1.ll nkey v) okey }
      | none => s.setCur d1
    | .tSet =>
      match mget d1.s okey with
      | some v => s.setCur { d1 with s := mdel (mset d1.s nkey v) okey }
      | none => s.setCur d1

/-- Model of `rename_nx`: the guarded rename with its integer sentinels. -/
def ServerState.rename_nx (s : ServerState) (okey nkey : String) : ServerState × String :=
  let t := s.getDBType okey
  let t1 := s.getDBType nkey
  if okey = nkey then (s, "-3")
  else if t1.isSome then (s, "0")
  else if t.isNone then (s, "-1")
  else (s.rename okey nkey, "1")

/-- Model of `dbsize`: the number of type-index entries. -/
def ServerState.dbsize (s : ServerState) : String := toString s.cur.tstore.length

/-- Model of `sadd`: `-2` on a non-set type, else record the set type, create the set
if absent, and add the member unless already present. -/
def ServerState.sadd (s : ServerState) (key member : String) : ServerState × String :=
  match s.getDBType key with
  | some .tString => (s, "-2")
  | some .tList => (s, "-2")
  | _ =>
    let d := s.cur
    let cur := (mget d.s key).getD []
    let d1 : DB := { d with tstore := mset d.tstore key .tSet, s := mset d.s key cur }
    if cur.contains member then (s.setCur d1, "0")
    else (s.setCur { d1 with s := mset d1.s key (member :: cur) }, "1")

/-- Model of `smembers`: the sorted members when the key is in the set store. -/
def ServerState.smembers (s : ServerState) (key : String) : Option (List String) :=
  (mget s.cur.s key).map sortStrings

/-- Model of `srem`: `-2` on a non-set type; delete the member if present (the set
entry itself is kept, even when it becomes empty). -/
def ServerState.srem (s : ServerState) (key member : String) : ServerState × String :=
  match s.getDBType key with
  | some .tString => (s, "-2")
  | some .tList => (s, "-2")
  | _ =>
    match mget s.cur.s key with
    | some mem =>
      if mem.contains member then
        (s.setCur { s.cur with s := mset s.cur.s key (mem.erase member) }, "1")
      else (s, "0")
    | none => (s, "0")

/-- Model of `scard`: `-2` on a non-set type, else the cardinality. -/
def ServerState.scard (s : ServerState) (key : String) : String :=
  match s.getDBType key with
  | some .tString => "-2"
  | some .tList => "-2"
  | _ => toString ((mget s.cur.s key).getD []).length

/-- Model of `sismember`: `-2` on a non-set type, else membership as 0/1. -/
def ServerState.sismember (s : ServerState) (key member : String) : String :=
  match s.getDBType key with
  | some .tString => "-2"
  | some .tList => "-2"
  | _ => if ((mget s.cur.s key).getD []).contains member then "1" else "0"

/-- The members counted into all named sets: the source increments a counter
per member per key and keeps those whose count equals the number of keys,
which is exactly membership in every named set. -/
def interMembers (d : DB) (keysL : List String) : List String :=
  let cand := (keysL.foldl (fun acc k => acc ++ (mget d.s k).getD []) []).dedup
  cand.filter (fun m =>
    decide (keysL.countP (fun k => ((mget d.s k).getD []).contains m) = keysL.length))

/-- Model of `sinter`: the sorted intersection of the named sets. -/
def ServerState.sinter (s : ServerState) (keysL : List String) : List String :=
  sortStrings (interMembers s.cur keysL)

/-- Model of `sinterstore`: store the intersection at the destination key, recording
the set type. -/
def ServerState.sinterstore (s : ServerState) (dst : String) (keysL : List String) :
    ServerState :=
  s.setCur { s.cur with tstore := mset s.cur.tstore dst .tSet,
                        s := mset s.cur.s dst (interMembers s.cur keysL) }

/-- Model of `move`: `-3` when the target index equals the select pointer, `-4` when
negative or greater than `NumDBs` (10, so index 10 slips through), `0` when
absent from the source or present in the target, else transfer the entry.
The `none` result models the Go panic: for `n = 10` the range check passes
and `rs.store[10]` indexes past the end of the ten-element array. -/
def ServerState.move (s : ServerState) (key : String) (n : Int) :
    Option (ServerState × String) :=
  if n = (s.sp : Nat) then some (s, "-3")
  else if n < 0 ∨ n > 10 then some (s, "-4")
  else if h : n.toNat < 10 then
    let tgt : Fin 10 := ⟨n.toNat, h⟩
    let src := s.store s.sp
    let tdb := s.store tgt
    match mget src.tstore key with
    | none => some (s, "0")
    | some t =>
      if (mget tdb.tstore key).isSome then some (s, "0")
      else
        let moved : DB × DB :=
          match t with
          | .tList => ({ src with ll := mdel src.ll key },
                       { tdb with ll := mset tdb.ll key ((mget src.ll key).getD []) })
          | .tSet => ({ src with s := mdel src.s key },
                      { tdb with s := mset tdb.s key ((mget src.s key).getD []) })
          | .tString => ({ src with kv := mdel src.kv key },
                         { tdb with kv := mset tdb.kv key ((mget src.kv key).getD "") })
        let src2 : DB := { moved.1 with tstore := mdel moved.1.tstore key }
        let tdb2 : DB := { moved.2 with tstore := mset moved.2.tstore key t }
        some ({ s with store := fun j => if j = tgt then tdb2
                                         else if j = s.sp then src2 else s.store j },
              "1")
  else none

/-- Model of `flushDB`: replace the current database with a fresh one. -/
def ServerState.flushDB (s : ServerState) : ServerState := s.setCur NewDB

/-- Model of `flushall`: replace all ten databases with fresh ones. -/
def ServerState.flushall (s : ServerState) : ServerState :=
  { s with store := fun _ => NewDB }

/-- Model of `NewRedisServer` as far as the model reaches: select pointer 0, all
databases flushed, `lastsave` 0. -/
def initialServer : ServerState := ⟨0, fun _ => NewDB, 0⟩

/-- Model of `Delimeter`, the end of a reply or request. -/
def CRLF : String := "\r\n"

def invalidCommandError : String := "-ERR Invalid Command" ++ CRLF

def integerOutOfRangeError : String := "-ERR value is not an integer or out of range" ++ CRLF

def wrongTypeError : String :=
  "-WRONGTYPE Operation against a key holding the wrong kind of value" ++ CRLF

def okStatus : String := "+OK" ++ CRLF

def emptySetOrList : String := "*-1" ++ CRLF

def emptyBulkString : String := "$-1" ++ CRLF

def noSuchKeyError : String := "-ERR no such key" ++ CRLF

/-- Model of `replySimpleString`. -/
def simpleString (val : String) : String := "+" ++ val ++ CRLF

/-- Model of `replySimpleError`. -/
def simpleError (val : String) : String := "-" ++ val ++ CRLF

/-- Model of `replyBulkString`. -/
def bulkString (val : String) : String :=
  "$" ++ toString val.length ++ CRLF ++ val ++ CRLF

/-- Model of `replyMultiBulkString`. -/
def multiBulkString (val : List String) : String :=
  "*" ++ toString val.length ++ CRLF ++
    String.join (val.map (fun v => "$" ++ toString v.length ++ CRLF ++ v ++ CRLF))

/-- Model of `replyInteger`; every call site passes a canonical decimal, for which the
Atoi-and-reformat of the source is the identity. -/
def intReply (val : String) : String := ":" ++ val ++ CRLF

/-- Model of `replyInvalidNumberOfArgsError`. -/
def argsError (command : String) : String :=
  "-ERR Invalid Number of Args for \x27" ++ command ++ "\x27" ++ CRLF

/-- The outcome of one dispatched command: the new state, the sequence of
reply writes made to the connection, and the boolean `ExecuteCommand`
returns (`false` only for SHUTDOWN); `crash` models a Go runtime panic. -/
inductive ExecOut where
  | ok (s : ServerState) (writes : List String) (cont : Bool)
  | crash

/-- The state of an outcome, with a default for the crash case. -/
def ExecOut.stateD (o : ExecOut) (d : ServerState) : ServerState :=
  match o with
  | .ok s _ _ => s
  | .crash => d

/-- The writes of an outcome. -/
def ExecOut.writes (o : ExecOut) : List String :=
  match o with
  | .ok _ w _ => w
  | .crash => []

/-- The INFO lines; the clock, memory and counter fields are outside the
model and rendered as zero, only the shape of the reply matters to any
claim. -/
def infoLines (s : ServerState) : List String :=
  ["server_version:0.1.0\n", "connected_clients:0\n", "used_memory:0\n",
   "last_save_time:" ++ toString s.lastsave ++ "\n",
   "total_connections_received:0\n", "total_commands_processed:0\n",
   "uptime_in_seconds:0\n", "uptime_in_days:0\n"]

/-- The PING case. -/
def execPing (s : ServerState) (args : List String) : ExecOut :=
  match args with
  | [] => .ok s [simpleString "PONG"] true
  | [m] => .ok s [simpleString m] true
  | _ => .ok s [argsError "PING"] true

/-- The QUIT case: the connection is closed and removed from the table (both
outside the model) and no reply is written. -/
def execQuit (s : ServerState) (args : List String) : ExecOut :=
  match args with
  | [] => .ok s [] true
  | _ => .ok s [argsError "QUIT"] true

/-- The INFO case. -/
def execInfo (s : ServerState) (args : List String) : ExecOut :=
  match args with
  | [] => .ok s [multiBulkString (infoLines s)] true
  | _ => .ok s [argsError "INFO"] true

/-- The SAVE case: the snapshot writer touches the disk and the wall clock,
neither of which is modelled; the keyspace is unchanged. -/
def execSave (s : ServerState) (args : List String) : ExecOut :=
  match args with
  | [] => .ok s [okStatus] true
  | _ => .ok s [argsError "SAVE"] true

/-- The BGSAVE case (the snapshot itself is outside the model). -/
def execBgsave (s : ServerState) (args : List String) : ExecOut :=
  match args with
  | [] => .ok s [okStatus] true
  | _ => .ok s [argsError "BGSAVE"] true

/-- The LASTSAVE case: no arity check at all in the source. -/
def execLastsave (s : ServerState) (_args : List String) : ExecOut :=
  .ok s [intReply (toString s.lastsave)] true

/-- The SHUTDOWN case: snapshot, close every connection and the listener
(outside the model), write nothing, return false. -/
def execShutdown (s : ServerState) (_args : List String) : ExecOut :=
  .ok s [] false

/-- The KEYS case. -/
def execKeys (s : ServerState) (args : List String) : ExecOut :=
  match args with
  | [pat] =>
    let val := s.keys pat
    if val.length = 0 then .ok s [emptySetOrList] true
    else .ok s [multiBulkString val] true
  | _ => .ok s [argsError "KEYS"] true

/-- The RANDOMKEY case. -/
def execRandomkey (s : ServerState) (args : List String) : ExecOut :=
  match args with
  | [] => .ok s [bulkString s.random_key] true
  | _ => .ok s [argsError "RANDOMKEY"] true

/-- The RENAME case. -/
def execRename (s : ServerState) (args : List String) : ExecOut :=
  match args with
  | [okey, nkey] =>
    if okey = nkey then .ok s [simpleError "Keys Must be Different"] true
    else .ok (s.rename okey nkey) [okStatus] true
  | _ => .ok s [argsError "RENAME"] true

/-- The RENAMENX case. -/
def execRenamenx (s : ServerState) (args : List String) : ExecOut :=
  match args with
  | [okey, nkey] =>
    let r := s.rename_nx okey nkey
    .ok r.1 [intReply r.2] true
  | _ => .ok s [argsError "RENAMENX"] true

/-- The DBSIZE case. -/
def execDbsize (s : ServerState) (args : List String) : ExecOut :=
  match args with
  | [] => .ok s [intReply s.dbsize] true
  | _ => .ok s [argsError "DBSIZE"] true

/-- The SELECT case: non-integers and indexes outside 0..9 yield the
integer-parse error, otherwise the shared select pointer is overwritten. -/
def execSelect (s : ServerState) (args : List String) : ExecOut :=
  match args with
  | [a] =>
    match atoi? a with
    | none => .ok s [integerOutOfRangeError] true
    | some index =>
      if h : index > 9 ∨ index < 0 then .ok s [integerOutOfRangeError] true
      else .ok { s with sp := ⟨index.toNat, by omega⟩ } [okStatus] true
  | _ => .ok s [argsError "SELECT"] true

/-- The MOVE case. -/
def execMove (s : ServerState) (args : List String) : ExecOut :=
  match args with
  | [key, a] =>
    match atoi? a with
    | none => .ok s [integerOutOfRangeError] true
    | some dbIndex =>
      match s.move key dbIndex with
      | some r => .ok r.1 [intReply r.2] true
      | none => .crash
  | _ => .ok s [argsError "MOVE"] true

/-- The FLUSHDB case: no arity check in the source. -/
def execFlushdb (s : ServerState) (_args : List String) : ExecOut :=
  .ok s.flushDB [okStatus] true

/-- The FLUSHALL case: no arity check in the source. -/
def execFlushall (s : ServerState) (_args : List String) : ExecOut :=
  .ok s.flushall [okStatus] true

/-- The SET case. -/
def execSet (s : ServerState) (args : List String) : ExecOut :=
  match args with
  | [k, v] => .ok (s.set k v) [okStatus] true
  | _ => .ok s [argsError "SET"] true

/-- The SETNX case. -/
def execSetnx (s : ServerState) (args : List String) : ExecOut :=
  match args with
  | [k, v] =>
    if (s.get k).2 then .ok s [intReply "0"] true
    else .ok (s.set k v) [intReply "1"] true
  | _ => .ok s [argsError "SETNX"] true

/-- The GET case: any type-index entry other than string — including no
entry at all — draws the wrong-type error. -/
def execGet (s : ServerState) (args : List String) : ExecOut :=
  match args with
  | [k] =>
    if s.getDBType k ≠ some .tString then .ok s [wrongTypeError] true
    else .ok s [bulkString (s.get k).1] true
  | _ => .ok s [argsError "GET"] true

/-- The EXISTS case. -/
def execExists (s : ServerState) (args : List String) : ExecOut :=
  match args with
  | [k] =>
    if typName (s.getDBType k) ≠ "none" then .ok s [intReply "1"] true
    else .ok s [intReply "0"] true
  | _ => .ok s [argsError "EXISTS"] true

/-- The INCR case. -/
def execIncr (s : ServerState) (args : List String) : ExecOut :=
  match args with
  | [k] =>
    let typ := s.getDBType k
    if typ = some .tList ∨ typ = some .tSet then .ok s [wrongTypeError] true
    else
      let g := s.get k
      if ¬ g.2 then .ok (s.set k "0") [intReply "0"] true
      else
        match atoi? g.1 with
        | none => .ok s [integerOutOfRangeError] true
        | some val =>
          let vs := toString (val + 1)
          .ok (s.set k vs) [intReply vs] true
  | _ => .ok s [argsError "INCR"] true

/-- The INCRBY case. -/
def execIncrby (s : ServerState) (args : List String) : ExecOut :=
  match args with
  | [k, a] =>
    let typ := s.getDBType k
    if typ = some .tList ∨ typ = some .tSet then .ok s [wrongTypeError] true
    else
      let g := s.get k
      if ¬ g.2 then
        match atoi? a with
        | none => .ok s [integerOutOfRangeError] true
        | some vv =>
          let vs := toString vv
          .ok (s.set k vs) [intReply vs] true
      else
        match atoi? g.1 with
        | none => .ok s [integerOutOfRangeError] true
        | some val =>
          match atoi? a with
          | none => .ok s [integerOutOfRangeError] true
          | some vv =>
            let vs := toString (val + vv)
            .ok (s.set k vs) [intReply vs] true
  | _ => .ok s [argsError "INCRBY"] true

/-- The DECR case.  The missing-key branch of the source lacks a `return`:
it stores "-1" and writes the reply `:-1`, then falls through — `get` has
produced the pair `("-1", false)` — so Atoi parses "-1", the value is
decremented to -2, stored, and a second reply `:-2` is written. -/
def execDecr (s : ServerState) (args : List String) : ExecOut :=
  match args with
  | [k] =>
    let typ := s.getDBType k
    if typ = some .tList ∨ typ = some .tSet then .ok s [wrongTypeError] true
    else
      let g := s.get k
      let s1 := if g.2 then s else s.set k "-1"
      let w1 : List String := if g.2 then [] else [intReply "-1"]
      match atoi? g.1 with
      | none => .ok s1 (w1 ++ [integerOutOfRangeError]) true
      | some val =>
        let vs := toString (val - 1)
        .ok (s1.set k vs) (w1 ++ [intReply vs]) true
  | _ => .ok s [argsError "DECR"] true

/-- The DECRBY case. -/
def execDecrby (s : ServerState) (args : List String) : ExecOut :=
  match args with
  | [k, a] =>
    let typ := s.getDBType k
    if typ = some .tList ∨ typ = some .tSet then .ok s [wrongTypeError] true
    else
      let g := s.get k
      if g.2 then
        match atoi? g.1 with
        | none => .ok s [integerOutOfRangeError] true
        | some val =>
          match atoi? a with
          | none => .ok s [integerOutOfRangeError] true
          | some vv =>
            let vs := toString (val - vv)
            .ok (s.set k vs) [intReply vs] true
      else
        match atoi? a with
        | none => .ok s [integerOutOfRangeError] true
        | some vv =>
          let vs := toString (-vv)
          .ok (s.set k vs) [intReply vs] true
  | _ => .ok s [argsError "DECRBY"] true

/-- The DEL case. -/
def execDel (s : ServerState) (args : List String) : ExecOut :=
  match args with
  | [k] =>
    let r := s.del k
    if r.2 then .ok r.1 [intReply "1"] true else .ok r.1 [intReply "0"] true
  | _ => .ok s [argsError "DEL"] true

/-- The TYPE case: the bare type word is written followed by the delimiter,
with no reply-shape prefix. -/
def execType (s : ServerState) (args : List String) : ExecOut :=
  match args with
  | [k] => .ok s [typName (s.getDBType k) ++ CRLF] true
  | _ => .ok s [argsError "TYPE"] true

/-- The LPUSH case. -/
def execLpush (s : ServerState) (args : List String) : ExecOut :=
  match args with
  | [k, v] =>
    match s.getDBType k with
    | none =>
      let r := s.lpush k v
      .ok r.1 [intReply r.2] true
    | some .tList =>
      let r := s.lpush k v
      .ok r.1 [intReply r.2] true
    | some _ => .ok s [wrongTypeError] true
  | _ => .ok s [argsError "LPUSH"] true

/-- The RPUSH case. -/
def execRpush (s : ServerState) (args : List String) : ExecOut :=
  match args with
  | [k, v] =>
    match s.getDBType k with
    | none =>
      let r := s.rpush k v
      .ok r.1 [intReply r.2] true
    | some .tList =>
      let r := s.rpush k v
      .ok r.1 [intReply r.2] true
    | some _ => .ok s [wrongTypeError] true
  | _ => .ok s [argsError "RPUSH"] true

/-- The LLEN case. -/
def execLlen (s : ServerState) (args : List String) : ExecOut :=
  match args with
  | [k] =>
    match s.getDBType k with
    | none => .ok s [intReply "0"] true
    | some .tList => .ok s [intReply (s.llen k)] true
    | some _ => .ok s [wrongTypeError] true
  | _ => .ok s [argsError "LLEN"] true

/-- The LRANGE case. -/
def execLrange (s : ServerState) (args : List String) : ExecOut :=
  match args with
  | [k, a, b] =>
    match s.getDBType k with
    | some .tString => .ok s [wrongTypeError] true
    | some .tSet => .ok s [wrongTypeError] true
    | none => .ok s [emptySetOrList] true
    | some .tList =>
      match atoi? a with
      | none => .ok s [integerOutOfRangeError] true
      | some st =>
        match atoi? b with
        | none => .ok s [integerOutOfRangeError] true
        | some en =>
          let val := s.lrange k st en
          if val.length = 0 then .ok s [emptySetOrList] true
          else .ok s [multiBulkString val] true
  | _ => .ok s [argsError "LRANGE"] true

/-- The LINDEX case. -/
def execLindex (s : ServerState) (args : List String) : ExecOut :=
  match args with
  | [k, a] =>
    match s.getDBType k with
    | some .tString => .ok s [wrongTypeError] true
    | some .tSet => .ok s [wrongTypeError] true
    | none => .ok s [emptyBulkString] true
    | some .tList =>
      match atoi? a with
      | none => .ok s [integerOutOfRangeError] true
      | some i =>
        let val := s.lindex k i
        if val = emptyBulkString then .ok s [emptyBulkString] true
        else .ok s [bulkString val] true
  | _ => .ok s [argsError "LINDEX"] true

/-- The LPOP case. -/
def execLpop (s : ServerState) (args : List String) : ExecOut :=
  match args with
  | [k] =>
    match s.getDBType k with
    | some .tString => .ok s [wrongTypeError] true
    | some .tSet => .ok s [wrongTypeError] true
    | none => .ok s [emptyBulkString] true
    | some .tList =>
      let r := s.lpop k
      .ok r.1 [bulkString r.2] true
  | _ => .ok s [argsError "LPOP"] true

/-- The RPOP case. -/
def execRpop (s : ServerState) (args : List String) : ExecOut :=
  match args with
  | [k] =>
    match s.getDBType k with
    | some .tString => .ok s [wrongTypeError] true
    | some .tSet => .ok s [wrongTypeError] true
    | none => .ok s [emptyBulkString] true
    | some .tList =>
      let r := s.rpop k
      .ok r.1 [bulkString r.2] true
  | _ => .ok s [argsError "RPOP"] true

/-- The LTRIM case: when `ltrim` answers false the key is deleted and the
empty-list reply is written. -/
def execLtrim (s : ServerState) (args : List String) : ExecOut :=
  match args with
  | [k, a, b] =>
    match s.getDBType k with
    | some .tString => .ok s [wrongTypeError] true
    | some .tSet => .ok s [wrongTypeError] true
    | none => .ok s [emptySetOrList] true
    | some .tList =>
      match atoi? a with
      | none => .ok s [integerOutOfRangeError] true
      | some st =>
        match atoi? b with
        | none => .ok s [integerOutOfRangeError] true
        | some en =>
          let r := s.ltrim k st en
          if r.2 then .ok r.1 [okStatus] true
          else .ok (r.1.del k).1 [emptySetOrList] true
  | _ => .ok s [argsError "LTRIM"] true

/-- The LSET case. -/
def execLset (s : ServerState) (args : List String) : ExecOut :=
  match args with
  | [k, a, v] =>
    match s.getDBType k with
    | some .tString => .ok s [wrongTypeError] true
    | some .tSet => .ok s [wrongTypeError] true
    | none => .ok s [noSuchKeyError] true
    | some .tList =>
      match atoi? a with
      | none => .ok s [integerOutOfRangeError] true
      | some i =>
        let r := s.lset k i v
        if r.2 then .ok r.1 [okStatus] true
        else .ok r.1 [integerOutOfRangeError] true
  | _ => .ok s [argsError "LSET"] true

/-- The LREM case with its integer sentinels. -/
def execLrem (s : ServerState) (args : List String) : ExecOut :=
  match args with
  | [k, a, v] =>
    match s.getDBType k with
    | some .tString => .ok s [intReply "-2"] true
    | some .tSet => .ok s [intReply "-2"] true
    | none => .ok s [intReply "-1"] true
    | some .tList =>
      match atoi? a with
      | none => .ok s [integerOutOfRangeError] true
      | some count =>
        let r := s.lrem k count v
        .ok r.1 [intReply r.2] true
  | _ => .ok s [argsError "LREM"] true

/-- The SADD case. -/
def execSadd (s : ServerState) (args : List String) : ExecOut :=
  match args with
  | [k, m] =>
    let r := s.sadd k m
    .ok r.1 [intReply r.2] true
  | _ => .ok s [argsError "SADD"] true

/-- The SREM case. -/
def execSrem (s : ServerState) (args : List String) : ExecOut :=
  match args with
  | [k, m] =>
    let r := s.srem k m
    .ok r.1 [intReply r.2] true
  | _ => .ok s [argsError "SREM"] true

/-- The SCARD case. -/
def execScard (s : ServerState) (args : List String) : ExecOut :=
  match args with
  | [k] => .ok s [intReply (s.scard k)] true
  | _ => .ok s [argsError "SCARD"] true

/-- The SISMEMBER case. -/
def execSismember (s : ServerState) (args : List String) : ExecOut :=
  match args with
  | [k, m] => .ok s [intReply (s.sismember k m)] true
  | _ => .ok s [argsError "SISMEMBER"] true

/-- The per-argument check of SINTER and SINTERSTORE: the first named key
with no entry draws the empty-list reply, the first with a non-set entry
draws the wrong-type error. -/
def checkSets (s : ServerState) : List String → Option String
  | [] => none
  | a :: t =>
    match s.getDBType a with
    | none => some emptySetOrList
    | some .tSet => checkSets s t
    | some _ => some wrongTypeError

/-- The SINTER case. -/
def execSinter (s : ServerState) (args : List String) : ExecOut :=
  if args.length = 0 then .ok s [argsError "SINTER"] true
  else
    match checkSets s args with
    | some e => .ok s [e] true
    | none =>
      let val := s.sinter args
      if val.length = 0 then .ok s [emptySetOrList] true
      else .ok s [multiBulkString val] true

/-- The SINTERSTORE case: the destination guard of the source,
`getDBType(args[0]) != "none" || getDBType(args[0]) == "set"`, rejects
every existing destination — a destination already holding a set included. -/
def execSinterstore (s : ServerState) (args : List String) : ExecOut :=
  if args.length < 2 then .ok s [argsError "SINTERSTORE"] true
  else
    match args with
    | [] => .ok s [argsError "SINTERSTORE"] true
    | dst :: srcs =>
      if ¬ (s.getDBType dst = none) ∨ s.getDBType dst = some .tSet then
        .ok s [wrongTypeError] true
      else
        match checkSets s srcs with
        | some e => .ok s [e] true
        | none => .ok (s.sinterstore dst srcs) [okStatus] true

/-- The SMEMBERS case. -/
def execSmembers (s : ServerState) (args : List String) : ExecOut :=
  match args with
  | [k] =>
    match s.smembers k with
    | none => .ok s [emptySetOrList] true
    | some val => .ok s [multiBulkString val] true
  | _ => .ok s [argsError "SMEMBERS"] true

/-- Model of `ExecuteCommand` of `server/main.go`: dispatch on the (already
uppercased) command name.  The connection index is threaded exactly as in
the source, where it is only used to drop the connection from the table on
QUIT; the table itself is outside the model. -/
def ExecuteCommand (s : ServerState) (_connIndex : Nat) (command : String)
    (args : List String) : ExecOut :=
  if command = "PING" then execPing s args
  else if command = "QUIT" then execQuit s args
  else if command = "INFO" then execInfo s args
  else if command = "SAVE" then execSave s args
  else if command = "BGSAVE" then execBgsave s args
  else if command = "LASTSAVE" then execLastsave s args
  else if command = "SHUTDOWN" then execShutdown s args
  else if command = "KEYS" then execKeys s args
  else if command = "RANDOMKEY" then execRandomkey s args
  else if command = "RENAME" then execRename s args
  else if command = "RENAMENX" then execRenamenx s args
  else if command = "DBSIZE" then execDbsize s args
  else if command = "SELECT" then execSelect s args
  else if command = "MOVE" then execMove s args
  else if command = "FLUSHDB" then execFlushdb s args
  else if command = "FLUSHALL" then execFlushall s args
  else if command = "SET" then execSet s args
  else if command = "SETNX" then execSetnx s args
  else if command = "GET" then execGet s args
  else if command = "EXISTS" then execExists s args
  else if command = "INCR" then execIncr s args
  else if command = "INCRBY" then execIncrby s args
  else if command = "DECR" then execDecr s args
  else if command = "DECRBY" then execDecrby s args
  else if command = "DEL" then execDel s args
  else if command = "TYPE" then execType s args
  else if command = "LPUSH" then execLpush s args
  else if command = "RPUSH" then execRpush s args
  else if command = "LLEN" then execLlen s args
  else if command = "LRANGE" then execLrange s args
  else if command = "LINDEX" then execLindex s args
  else if command = "LPOP" then execLpop s args
  else if command = "RPOP" then execRpop s args
  else if command = "LTRIM" then execLtrim s args
  else if command = "LSET" then execLset s args
  else if command = "LREM" then execLrem s args
  else if command = "SADD" then execSadd s args
  else if command = "SREM" then execSrem s args
  else if command = "SCARD" then execScard s args
  else if command = "SISMEMBER" then execSismember s args
  else if command = "SINTER" then execSinter s args
  else if command = "SINTERSTORE" then execSinterstore s args
  else if command = "SMEMBERS" then execSmembers s args
  else .ok s [invalidCommandError] true

/-- Result of a read from the wire: a parsed value with the unconsumed
input, a returned error, or a Go runtime panic. -/
inductive RRes (α : Type) where
  | ok (v : α) (rest : List Char)
  | err
  | crash

/-- Model of `bufio.ReadString` with delimiter newline: the prefix up to and
including the first newline, or `none` (a read error) when the input has no
newline left. -/
def readLine : List Char → Option (List Char × List Char)
  | [] => none
  | c :: t =>
    if c = '\n' then some ([c], t)
    else
      match readLine t with
      | some (m, r) => some (c :: m, r)
      | none => none

/-- Model of `readInteger`: a decimal line terminated by CRLF, re-rendered through
`%d`.  A one-character line makes the source index `message[ml-2]` with a
negative index, a panic. -/
def readInteger (input : List Char) : RRes String :=
  match readLine input with
  | none => .err
  | some (message, rest) =>
    let ml := message.length
    if ml < 2 then .crash
    else if message.getD (ml - 2) ' ' ≠ '\r' then .err
    else
      match atoi? (String.mk (message.take (ml - 2))) with
      | none => .err
      | some num => .ok (toString num) rest

/-- Model of `readBulkString`: a length line, then `length + 2` bytes whose last two
must be CRLF.  The declared length is used unchecked: `make([]byte, length+2)`
panics for `length ≤ -3`, and for `length = -1` (a null bulk) or `length = -2`
the read succeeds and `buf[length]` indexes the buffer at a negative
position — a panic.  A short input (the read cannot deliver `length + 2`
bytes) is an error return. -/
def readBulkString (input : List Char) : RRes String :=
  match readLine input with
  | none => .err
  | some (message, rest) =>
    let ml := message.length
    if ml < 2 then .crash
    else if message.getD (ml - 2) ' ' ≠ '\r' then .err
    else
      match atoi? (String.mk (message.take (ml - 2))) with
      | none => .err
      | some length =>
        if length + 2 < 0 then .crash
        else
          let want := (length + 2).toNat
          let bytesRead := min want rest.length
          if bytesRead ≠ want then .err
          else
            let buf := rest.take want
            if length < 0 then .crash
            else if buf.getD length.toNat ' ' ≠ '\r' then .err
            else if buf.getD (length.toNat + 1) ' ' ≠ '\n' then .err
            else .ok (String.mk (buf.take length.toNat)) (rest.drop want)

mutual

/-- Model of `readArray`: a count line, then that many elements.  The fuel only bounds
the recursion; every run of the source that terminates is reproduced with
fuel at least the input length plus one. -/
def readArray : Nat → List Char → RRes (List String)
  | 0, _ => .err
  | Nat.succ fuel, input =>
    match readLine input with
    | none => .err
    | some (message, rest) =>
      let ml := message.length
      if ml < 2 then .crash
      else if message.getD (ml - 2) ' ' ≠ '\r' then .err
      else
        match atoi? (String.mk (message.take (ml - 2))) with
        | none => .err
        | some numElems => readElems fuel numElems.toNat rest []

/-- The element loop of `readArray`: a nested array is parsed but
contributes nothing to the flattened argument list; integers and bulk
strings are appended. -/
def readElems : Nat → Nat → List Char → List String → RRes (List String)
  | _, 0, rest, acc => .ok acc rest
  | 0, Nat.succ _, _, _ => .err
  | Nat.succ fuel, Nat.succ n, input, acc =>
    match input with
    | [] => .err
    | b :: rest =>
      if b = '*' then
        match readArray fuel rest with
        | .ok _ rest2 => readElems fuel n rest2 acc
        | .err => .err
        | .crash => .crash
      else if b = ':' then
        match readInteger rest with
        | .ok m rest2 => readElems fuel n rest2 (acc ++ [m])
        | .err => .err
        | .crash => .crash
      else if b = '$' then
        match readBulkString rest with
        | .ok m rest2 => readElems fuel n rest2 (acc ++ [m])
        | .err => .err
        | .crash => .crash
      else .err

end

/-- Model of `readCommand`: the first byte must open a bulk command array. -/
def readCommand (input : List Char) : RRes (List String) :=
  match input with
  | [] => .err
  | b :: rest => if b ≠ '*' then .err else readArray (rest.length + 1) rest

/-- Whether the typed map named by a type sits on a key. -/
def mapHas (d : DB) (t : DTyp) (k : String) : Bool :=
  match t with
  | .tString => (mget d.kv k).isSome
  | .tList => (mget d.ll k).isSome
  | .tSet => (mget d.s k).isSome

/-- The direction of the type-index invariant the code maintains: every key
of the type index is present in the typed map its entry names. -/
def TypedMapInv (d : DB) : Prop :=
  ∀ k t, mget d.tstore k = some t → mapHas d t k = true

/-- The invariant over all ten databases. -/
def ServerInv (s : ServerState) : Prop := ∀ i : Fin 10, TypedMapInv (s.store i)

/-- How many of the three typed maps hold a key. -/
def containerCount (d : DB) (k : String) : Nat :=
  (if (mget d.kv k).isSome then 1 else 0) +
    (if (mget d.s k).isSome then 1 else 0) +
    (if (mget d.ll k).isSome then 1 else 0)

/-- The claimed exactly-one invariant: a key appears in the type index iff
it appears in exactly one of the three typed maps. -/
def TypeIndexExact (d : DB) : Prop :=
  ∀ k, (mget d.tstore k).isSome ↔ containerCount d k = 1

/-- States reachable from server start by dispatched commands that did not
crash. -/
inductive Reachable : ServerState → Prop where
  | init : Reachable initialServer
  | step {s s' : ServerState} {ci : Nat} {cmd : String} {args w : List String}
      {c : Bool} : Reachable s → ExecuteCommand s ci cmd args = .ok s' w c →
      Reachable s'

/-- The one double-reply case: DECR, a single argument naming a key whose
type is not list or set and which is absent from the string store. -/
def decrDoubleWrite (s : ServerState) (cmd : String) (args : List String) : Prop :=
  cmd = "DECR" ∧ ∃ k, args = [k] ∧
    ¬ (s.getDBType k = some .tList ∨ s.getDBType k = some .tSet) ∧
    mget s.cur.kv k = none

/-- The dispatched commands other than FLUSHDB, FLUSHALL, LASTSAVE and
SHUTDOWN, each of which rejects at least one argument count with the arity
error. -/
def arityCheckedCommands : List String :=
  ["PING", "QUIT", "INFO", "SAVE", "BGSAVE", "KEYS", "RANDOMKEY", "RENAME",
   "RENAMENX", "DBSIZE", "SELECT", "MOVE", "SET", "SETNX", "GET", "EXISTS",
   "INCR", "INCRBY", "DECR", "DECRBY", "DEL", "TYPE", "LPUSH", "RPUSH", "LLEN",
   "LRANGE", "LINDEX", "LPOP", "RPOP", "LTRIM", "LSET", "LREM", "SADD", "SREM",
   "SCARD", "SISMEMBER", "SINTER", "SINTERSTORE", "SMEMBERS"]

/-- One argument list each command rejects with the arity error: the variadic
SINTER and SINTERSTORE reject too few arguments, every other command rejects
five. -/
def badArity (cmd : String) : List String :=
  if cmd = "SINTER" ∨ cmd = "SINTERSTORE" then [] else ["x", "x", "x", "x", "x"]

theorem mget_mset {α : Type} (m : List (String × α)) (k q : String) (v : α) :
    mget (mset m k v) q = if k = q then some v else mget m q := by
  induction m with
  | nil => rfl
  | cons p t ih =>
    obtain ⟨k1, v1⟩ := p
    by_cases h1 : k1 = k
    · subst h1
      by_cases h2 : k1 = q <;> simp [mget, mset, h2]
    · by_cases h2 : k1 = q
      · subst h2
        have h3 : ¬ k = k1 := fun e => h1 e.symm
        simp [mget, mset, h1, h3]
      · simp [mget, mset, h1, h2, ih]

theorem mget_mdel {α : Type} (m : List (String × α)) (k q : String) :
    mget (mdel m k) q = if k = q then none else mget m q := by
  induction m with
  | nil => simp [mget, mdel]
  | cons p t ih =>
    obtain ⟨k1, v1⟩ := p
    by_cases h1 : k1 = k
    · subst h1
      by_cases h2 : k1 = q
      · subst h2; simp [mdel, ih]
      · have h3 : ¬ k1 = q := h2
        simp [mget, mdel, h3, ih]
    · by_cases h2 : k1 = q
      · subst h2
        have h3 : ¬ k = k1 := fun e => h1 e.symm
        simp [mget, mdel, h1, h3]
      · simp [mget, mdel, h1, h2, ih]

theorem cur_setCur (s : ServerState) (d : DB) : (s.setCur d).cur = d := by
  simp [ServerState.setCur, ServerState.cur]

theorem inv_setCur {s : ServerState} {d : DB} (hs : ServerInv s)
    (hd : TypedMapInv d) : ServerInv (s.setCur d) := by
  intro i
  simp only [ServerState.setCur]
  by_cases h : i = s.sp <;> simp [h]
  · exact hd
  · exact hs i

theorem inv_cur {s : ServerState} (hs : ServerInv s) : TypedMapInv s.cur := hs s.sp

theorem tmi_mdel_tstore {d : DB} (hd : TypedMapInv d) (k : String)
    (kv2 : List (String × String)) (s2 ll2 : List (String × List String))
    (hkv : ∀ q, q ≠ k → mget kv2 q = mget d.kv q)
    (hst : ∀ q, q ≠ k → mget s2 q = mget d.s q)
    (hll : ∀ q, q ≠ k → mget ll2 q = mget d.ll q) :
    TypedMapInv ⟨kv2, s2, ll2, mdel d.tstore k⟩ := by
  intro q t hq
  simp only [mget_mdel] at hq
  by_cases h : k = q
  · simp [h] at hq
  · rw [if_neg h] at hq
    have hh := hd q t hq
    have hq2 : q ≠ k := fun e => h e.symm
    cases t <;> simp only [mapHas] at hh ⊢
    · rw [hkv q hq2]; exact hh
    · rw [hll q hq2]; exact hh
    · rw [hst q hq2]; exact hh

theorem tmi_mset_tstore {d : DB} (hd : TypedMapInv d) (k : String) (t0 : DTyp)
    (kv2 : List (String × String)) (s2 ll2 : List (String × List String))
    (hkv : ∀ q, q ≠ k → mget kv2 q = mget d.kv q)
    (hst : ∀ q, q ≠ k → mget s2 q = mget d.s q)
    (hll : ∀ q, q ≠ k → mget ll2 q = mget d.ll q)
    (hk : mapHas ⟨kv2, s2, ll2, mset d.tstore k t0⟩ t0 k = true) :
    TypedMapInv ⟨kv2, s2, ll2, mset d.tstore k t0⟩ := by
  intro q t hq
  simp only [mget_mset] at hq
  by_cases h : k = q
  · rw [if_pos h] at hq
    cases hq
    subst h
    exact hk
  · rw [if_neg h] at hq
    have hh := hd q t hq
    have hq2 : q ≠ k := fun e => h e.symm
    cases t <;> simp only [mapHas] at hh ⊢
    · rw [hkv q hq2]; exact hh
    · rw [hll q hq2]; exact hh
    · rw [hst q hq2]; exact hh

theorem tmi_maps_update {d : DB} (hd : TypedMapInv d)
    (kv2 : List (String × String)) (s2 ll2 : List (String × List String))
    (hkv : ∀ q, (mget d.kv q).isSome → (mget kv2 q).isSome)
    (hst : ∀ q, (mget d.s q).isSome → (mget s2 q).isSome)
    (hll : ∀ q, (mget d.ll q).isSome → (mget ll2 q).isSome) :
    TypedMapInv ⟨kv2, s2, ll2, d.tstore⟩ := by
  intro q t hq
  have hh := hd q t hq
  cases t <;> simp only [mapHas] at hh ⊢
  · exact hkv q hh
  · exact hll q hh
  · exact hst q hh

theorem isSome_mset {α : Type} (m : List (String × α)) (k q : String) (v : α)
    (h : (mget m q).isSome) : (mget (mset m k v) q).isSome := by
  rw [mget_mset]
  by_cases hk : k = q <;> simp [hk, h]

theorem inv_set {s : ServerState} (k v : String) (hs : ServerInv s) :
    ServerInv (s.set k v) := by
  refine inv_setCur hs ?_
  refine tmi_mset_tstore (inv_cur hs) k .tString _ _ _ ?_ ?_ ?_ ?_
  · intro q hq; rw [mget_mset, if_neg (fun e => hq e.symm)]
  · intro q _; rfl
  · intro q _; rfl
  · simp [mapHas, mget_mset]

theorem inv_del {s : ServerState} (k : String) (hs : ServerInv s) :
    ServerInv (s.del k).1 := by
  unfold ServerState.del
  dsimp only
  have hmd : ∀ {α : Type} (m : List (String × α)) (q : String), q ≠ k →
      mget (mdel m k) q = mget m q := by
    intro α m q hq
    rw [mget_mdel, if_neg (fun e => hq e.symm)]
  split
  · exact inv_setCur hs (tmi_mdel_tstore (inv_cur hs) k _ _ _
      (fun q hq => hmd _ q hq) (fun q _ => rfl) (fun q _ => rfl))
  · split
    · exact inv_setCur hs (tmi_mdel_tstore (inv_cur hs) k _ _ _
        (fun q _ => rfl) (fun q hq => hmd _ q hq) (fun q _ => rfl))
    · split
      · exact inv_setCur hs (tmi_mdel_tstore (inv_cur hs) k _ _ _
          (fun q _ => rfl) (fun q _ => rfl) (fun q hq => hmd _ q hq))
      · exact inv_setCur hs (tmi_mdel_tstore (inv_cur hs) k _ _ _
          (fun q _ => rfl) (fun q _ => rfl) (fun q _ => rfl))

theorem inv_lpush {s : ServerState} (k v : String) (hs : ServerInv s) :
    ServerInv (s.lpush k v).1 := by
  refine inv_setCur hs ?_
  refine tmi_mset_tstore (inv_cur hs) k .tList _ _ _ ?_ ?_ ?_ ?_
  · intro q _; rfl
  · intro q _; rfl
  · intro q hq; rw [mget_mset, if_neg (fun e => hq e.symm)]
  · simp [mapHas, mget_mset]

theorem inv_rpush {s : ServerState} (k v : String) (hs : ServerInv s) :
    ServerInv (s.rpush k v).1 := by
  refine inv_setCur hs ?_
  refine tmi_mset_tstore (inv_cur hs) k .tList _ _ _ ?_ ?_ ?_ ?_
  · intro q _; rfl
  · intro q _; rfl
  · intro q hq; rw [mget_mset, if_neg (fun e => hq e.symm)]
  · simp [mapHas, mget_mset]

theorem inv_lpop {s : ServerState} (k : String) (hs : ServerInv s) :
    ServerInv (s.lpop k).1 := by
  unfold ServerState.lpop
  dsimp only
  split
  · exact inv_setCur hs (tmi_maps_update (inv_cur hs) _ _ _
      (fun q h => h) (fun q h => h) (fun q h => isSome_mset _ _ _ _ h))
  · exact hs

theorem inv_rpop {s : ServerState} (k : String) (hs : ServerInv s) :
    ServerInv (s.rpop k).1 := by
  unfold ServerState.rpop
  dsimp only
  split
  · exact inv_setCur hs (tmi_maps_update (inv_cur hs) _ _ _
      (fun q h => h) (fun q h => h) (fun q h => isSome_mset _ _ _ _ h))
  · exact hs

theorem inv_ltrim {s : ServerState} (k : String) (a b : Int) (hs : ServerInv s) :
    ServerInv (s.ltrim k a b).1 := by
  unfold ServerState.ltrim
  dsimp only
  split
  · exact hs
  · exact inv_setCur hs (tmi_maps_update (inv_cur hs) _ _ _
      (fun q h => h) (fun q h => h) (fun q h => isSome_mset _ _ _ _ h))

theorem inv_lset {s : ServerState} (k : String) (i : Int) (v : String)
    (hs : ServerInv s) : ServerInv (s.lset k i v).1 := by
  unfold ServerState.lset
  dsimp only
  split
  · exact inv_setCur hs (tmi_maps_update (inv_cur hs) _ _ _
      (fun q h => h) (fun q h => h) (fun q h => isSome_mset _ _ _ _ h))
  · exact hs

theorem inv_lrem {s : ServerState} (k : String) (i : Int) (v : String)
    (hs : ServerInv s) : ServerInv (s.lrem k i v).1 := by
  unfold ServerState.lrem
  dsimp only
  exact inv_setCur hs (tmi_maps_update (inv_cur hs) _ _ _
    (fun q h => h) (fun q h => h) (fun q h => isSome_mset _ _ _ _ h))

theorem inv_sadd {s : ServerState} (k m : String) (hs : ServerInv s) :
    ServerInv (s.sadd k m).1 := by
  unfold ServerState.sadd
  dsimp only
  split
  · exact hs
  · exact hs
  · split
    · refine inv_setCur hs ?_
      refine tmi_mset_tstore (inv_cur hs) k .tSet _ _ _ ?_ ?_ ?_ ?_
      · intro q _; rfl
      · intro q hq; rw [mget_mset, if_neg (fun e => hq e.symm)]
      · intro q _; rfl
      · simp [mapHas, mget_mset]
    · refine inv_setCur hs ?_
      refine tmi_mset_tstore (inv_cur hs) k .tSet _ _ _ ?_ ?_ ?_ ?_
      · intro q _; rfl
      · intro q hq
        rw [mget_mset, if_neg (fun e => hq e.symm),
            mget_mset, if_neg (fun e => hq e.symm)]
      · intro q _; rfl
      · simp [mapHas, mget_mset]

theorem inv_srem {s : ServerState} (k m : String) (hs : ServerInv s) :
    ServerInv (s.srem k m).1 := by
  unfold ServerState.srem
  dsimp only
  split
  · exact hs
  · exact hs
  · split
    · split
      · exact inv_setCur hs (tmi_maps_update (inv_cur hs) _ _ _
          (fun q h => h) (fun q h => isSome_mset _ _ _ _ h) (fun q h => h))
      · exact hs
    · exact hs

theorem inv_sinterstore {s : ServerState} (dst : String) (keysL : List String)
    (hs : ServerInv s) : ServerInv (s.sinterstore dst keysL) := by
  refine inv_setCur hs ?_
  refine tmi_mset_tstore (inv_cur hs) dst .tSet _ _ _ ?_ ?_ ?_ ?_
  · intro q _; rfl
  · intro q hq; rw [mget_mset, if_neg (fun e => hq e.symm)]
  · intro q _; rfl
  · simp [mapHas, mget_mset]

theorem inv_flushDB {s : ServerState} (hs : ServerInv s) : ServerInv s.flushDB := by
  refine inv_setCur hs ?_
  intro q t hq
  simp [NewDB, mget] at hq

theorem inv_flushall (s : ServerState) : ServerInv s.flushall := by
  intro i q t hq
  simp [ServerState.flushall, NewDB, mget] at hq

theorem inv_sp {s : ServerState} (x : Fin 10) (hs : ServerInv s) :
    ServerInv { s with sp := x } := hs

theorem inv_rename {s : ServerState} (okey nkey : String) (hne : okey ≠ nkey)
    (hs : ServerInv s) : ServerInv (s.rename okey nkey) := by
  have hmm : ∀ {α : Type} (m : List (String × α)) (v : α),
      mget (mdel (mset m nkey v) okey) nkey = some v := by
    intro α m v
    rw [mget_mdel, if_neg hne, mget_mset, if_pos rfl]
  have hmo : ∀ {α : Type} (m : List (String × α)) (v : α) (q : String),
      okey ≠ q → nkey ≠ q → mget (mdel (mset m nkey v) okey) q = mget m q := by
    intro α m v q h1 h2
    rw [mget_mdel, if_neg h1, mget_mset, if_neg h2]
  unfold ServerState.rename
  dsimp only
  split
  · exact hs
  next t ht =>
    cases t <;> dsimp only
    · split
      next v hv =>
        refine inv_setCur hs ?_
        intro q t' hq
        simp only at hq
        rw [mget_mset] at hq
        by_cases h1 : nkey = q
        · rw [if_pos h1] at hq
          cases hq
          subst h1
          simp [mapHas, hmm]
        · rw [if_neg h1, mget_mdel] at hq
          by_cases h2 : okey = q
          · rw [if_pos h2] at hq; cases hq
          · rw [if_neg h2] at hq
            have hh := inv_cur hs q t' hq
            cases t' <;> simp only [mapHas] at hh ⊢
            · rw [hmo _ _ q h2 h1]; exact hh
            · exact hh
            · exact hh
      next hv =>
        have hh := inv_cur hs okey _ ht
        simp [mapHas, hv] at hh
    · split
      next v hv =>
        refine inv_setCur hs ?_
        intro q t' hq
        simp only at hq
        rw [mget_mset] at hq
        by_cases h1 : nkey = q
        · rw [if_pos h1] at hq
          cases hq
          subst h1
          simp [mapHas, hmm]
        · rw [if_neg h1, mget_mdel] at hq
          by_cases h2 : okey = q
          · rw [if_pos h2] at hq; cases hq
          · rw [if_neg h2] at hq
            have hh := inv_cur hs q t' hq
            cases t' <;> simp only [mapHas] at hh ⊢
            · exact hh
            · rw [hmo _ _ q h2 h1]; exact hh
            · exact hh
      next hv =>
        have hh := inv_cur hs okey _ ht
        simp [mapHas, hv] at hh
    · split
      next v hv =>
        refine inv_setCur hs ?_
        intro q t' hq
        simp only at hq
        rw [mget_mset] at hq
        by_cases h1 : nkey = q
        · rw [if_pos h1] at hq
          cases hq
          subst h1
          simp [mapHas, hmm]
        · rw [if_neg h1, mget_mdel] at hq
          by_cases h2 : okey = q
          · rw [if_pos h2] at hq; cases hq
          · rw [if_neg h2] at hq
            have hh := inv_cur hs q t' hq
            cases t' <;> simp only [mapHas] at hh ⊢
            · exact hh
            · exact hh
            · rw [hmo _ _ q h2 h1]; exact hh
      next hv =>
        have hh := inv_cur hs okey _ ht
        simp [mapHas, hv] at hh

theorem inv_rename_nx {s : ServerState} (okey nkey : String) (hs : ServerInv s) :
    ServerInv (s.rename_nx okey nkey).1 := by
  unfold ServerState.rename_nx
  dsimp only
  split
  · exact hs
  · split
    · exact hs
    · split
      · exact hs
      next hne _ _ => exact inv_rename okey nkey hne hs

theorem inv_move {s : ServerState} (key : String) (n : Int) {s' : ServerState}
    {r : String} (h : s.move key n = some (s', r)) (hs : ServerInv s) :
    ServerInv s' := by
  unfold ServerState.move at h
  dsimp only at h
  split at h
  · injection h with h2
    injection h2 with ha hb
    subst ha
    exact hs
  split at h
  · injection h with h2
    injection h2 with ha hb
    subst ha
    exact hs
  split at h
  case isTrue hlt =>
    split at h
    · injection h with h2
      injection h2 with ha hb
      subst ha
      exact hs
    next t ht =>
      split at h
      · injection h with h2
        injection h2 with ha hb
        subst ha
        exact hs
      · injection h with h2
        injection h2 with ha hb
        subst ha
        cases t
        · intro i
          dsimp only
          split
          · refine tmi_mset_tstore (hs _) key .tString _ _ _ ?_ ?_ ?_ ?_
            · intro q hq; rw [mget_mset, if_neg (fun e => hq e.symm)]
            · intro q _; rfl
            · intro q _; rfl
            · simp [mapHas, mget_mset]
          split
          · refine tmi_mdel_tstore (hs _) key _ _ _ ?_ ?_ ?_
            · intro q hq; rw [mget_mdel, if_neg (fun e => hq e.symm)]
            · intro q _; rfl
            · intro q _; rfl
          · exact hs i
        · intro i
          dsimp only
          split
          · refine tmi_mset_tstore (hs _) key .tList _ _ _ ?_ ?_ ?_ ?_
            · intro q _; rfl
            · intro q _; rfl
            · intro q hq; rw [mget_mset, if_neg (fun e => hq e.symm)]
            · simp [mapHas, mget_mset]
          split
          · refine tmi_mdel_tstore (hs _) key _ _ _ ?_ ?_ ?_
            · intro q _; rfl
            · intro q _; rfl
            · intro q hq; rw [mget_mdel, if_neg (fun e => hq e.symm)]
          · exact hs i
        · intro i
          dsimp only
          split
          · refine tmi_mset_tstore (hs _) key .tSet _ _ _ ?_ ?_ ?_ ?_
            · intro q _; rfl
            · intro q hq; rw [mget_mset, if_neg (fun e => hq e.symm)]
            · intro q _; rfl
            · simp [mapHas, mget_mset]
          split
          · refine tmi_mdel_tstore (hs _) key _ _ _ ?_ ?_ ?_
            · intro q _; rfl
            · intro q hq; rw [mget_mdel, if_neg (fun e => hq e.symm)]
            · intro q _; rfl
          · exact hs i
  case isFalse hlt => exact Option.noConfusion h

theorem spec_ping {s s' : ServerState} {args w : List String} {c : Bool}
    (h : execPing s args = .ok s' w c) :
    w.length = 1 ∧ (ServerInv s → ServerInv s') := by
  unfold execPing at h
  split at h <;>
    (injection h with h1 h2 h3; subst h1; subst h2; exact ⟨rfl, id⟩)

theorem spec_info {s s' : ServerState} {args w : List String} {c : Bool}
    (h : execInfo s args = .ok s' w c) :
    w.length = 1 ∧ (ServerInv s → ServerInv s') := by
  unfold execInfo at h
  split at h <;>
    (injection h with h1 h2 h3; subst h1; subst h2; exact ⟨rfl, id⟩)

theorem spec_save {s s' : ServerState} {args w : List String} {c : Bool}
    (h : execSave s args = .ok s' w c) :
    w.length = 1 ∧ (ServerInv s → ServerInv s') := by
  unfold execSave at h
  split at h <;>
    (injection h with h1 h2 h3; subst h1; subst h2; exact ⟨rfl, id⟩)

theorem spec_bgsave {s s' : ServerState} {args w : List String} {c : Bool}
    (h : execBgsave s args = .ok s' w c) :
    w.length = 1 ∧ (ServerInv s → ServerInv s') := by
  unfold execBgsave at h
  split at h <;>
    (injection h with h1 h2 h3; subst h1; subst h2; exact ⟨rfl, id⟩)

theorem spec_lastsave {s s' : ServerState} {args w : List String} {c : Bool}
    (h : execLastsave s args = .ok s' w c) :
    w.length = 1 ∧ (ServerInv s → ServerInv s') := by
  unfold execLastsave at h
  injection h with h1 h2 h3
  subst h1
  subst h2
  exact ⟨rfl, id⟩

theorem spec_keys {s s' : ServerState} {args w : List String} {c : Bool}
    (h : execKeys s args = .ok s' w c) :
    w.length = 1 ∧ (ServerInv s → ServerInv s') := by
  unfold execKeys at h
  split at h
  · dsimp only at h
    split at h <;>
      (injection h with h1 h2 h3; subst h1; subst h2; exact ⟨rfl, id⟩)
  · injection h with h1 h2 h3; subst h1; subst h2; exact ⟨rfl, id⟩

theorem spec_randomkey {s s' : ServerState} {args w : List String} {c : Bool}
    (h : execRandomkey s args = .ok s' w c) :
    w.length = 1 ∧ (ServerInv s → ServerInv s') := by
  unfold execRandomkey at h
  split at h <;>
    (injection h with h1 h2 h3; subst h1; subst h2; exact ⟨rfl, id⟩)

theorem spec_rename {s s' : ServerState} {args w : List String} {c : Bool}
    (h : execRename s args = .ok s' w c) :
    w.length = 1 ∧ (ServerInv s → ServerInv s') := by
  unfold execRename at h
  split at h
  next okey nkey =>
    split at h
    · injection h with h1 h2 h3; subst h1; subst h2; exact ⟨rfl, id⟩
    next hne =>
      injection h with h1 h2 h3
      subst h1
      subst h2
      exact ⟨rfl, inv_rename okey nkey hne⟩
  · injection h with h1 h2 h3; subst h1; subst h2; exact ⟨rfl, id⟩

theorem spec_renamenx {s s' : ServerState} {args w : List String} {c : Bool}
    (h : execRenamenx s args = .ok s' w c) :
    w.length = 1 ∧ (ServerInv s → ServerInv s') := by
  unfold execRenamenx at h
  split at h
  next okey nkey =>
    dsimp only at h
    injection h with h1 h2 h3
    subst h1
    subst h2
    exact ⟨rfl, inv_rename_nx okey nkey⟩
  · injection h with h1 h2 h3; subst h1; subst h2; exact ⟨rfl, id⟩

theorem spec_dbsize {s s' : ServerState} {args w : List String} {c : Bool}
    (h : execDbsize s args = .ok s' w c) :
    w.length = 1 ∧ (ServerInv s → ServerInv s') := by
  unfold execDbsize at h
  split at h <;>
    (injection h with h1 h2 h3; subst h1; subst h2; exact ⟨rfl, id⟩)

theorem spec_select {s s' : ServerState} {args w : List String} {c : Bool}
    (h : execSelect s args = .ok s' w c) :
    w.length = 1 ∧ (ServerInv s → ServerInv s') := by
  unfold execSelect at h
  split at h
  · split at h
    · injection h with h1 h2 h3; subst h1; subst h2; exact ⟨rfl, id⟩
    · split at h
      · injection h with h1 h2 h3; subst h1; subst h2; exact ⟨rfl, id⟩
      · injection h with h1 h2 h3
        subst h1
        subst h2
        exact ⟨rfl, inv_sp _⟩
  · injection h with h1 h2 h3; subst h1; subst h2; exact ⟨rfl, id⟩

theorem spec_move {s s' : ServerState} {args w : List String} {c : Bool}
    (h : execMove s args = .ok s' w c) :
    w.length = 1 ∧ (ServerInv s → ServerInv s') := by
  unfold execMove at h
  split at h
  next key a =>
    split at h
    · injection h with h1 h2 h3; subst h1; subst h2; exact ⟨rfl, id⟩
    next dbIndex hdb =>
      split at h
      next r hr =>
        obtain ⟨s1, r1⟩ := r
        injection h with h1 h2 h3
        subst h1
        subst h2
        exact ⟨rfl, inv_move key dbIndex hr⟩
      · exact ExecOut.noConfusion h
  · injection h with h1 h2 h3; subst h1; subst h2; exact ⟨rfl, id⟩

theorem spec_flushdb {s s' : ServerState} {args w : List String} {c : Bool}
    (h : execFlushdb s args = .ok s' w c) :
    w.length = 1 ∧ (ServerInv s → ServerInv s') := by
  unfold execFlushdb at h
  injection h with h1 h2 h3
  subst h1
  subst h2
  exact ⟨rfl, inv_flushDB⟩

theorem spec_flushall {s s' : ServerState} {args w : List String} {c : Bool}
    (h : execFlushall s args = .ok s' w c) :
    w.length = 1 ∧ (ServerInv s → ServerInv s') := by
  unfold execFlushall at h
  injection h with h1 h2 h3
  subst h1
  subst h2
  exact ⟨rfl, fun _ => inv_flushall s⟩

theorem spec_quit {s s' : ServerState} {args w : List String} {c : Bool}
    (h : execQuit s args = .ok s' w c) :
    w.length ≤ 1 ∧ (ServerInv s → ServerInv s') := by
  unfold execQuit at h
  split at h <;>
    (injection h with h1 h2 h3; subst h1; subst h2; exact ⟨by simp, id⟩)

theorem spec_shutdown {s s' : ServerState} {args w : List String} {c : Bool}
    (h : execShutdown s args = .ok s' w c) :
    w.length = 0 ∧ (ServerInv s → ServerInv s') := by
  unfold execShutdown at h
  injection h with h1 h2 h3
  subst h1
  subst h2
  exact ⟨rfl, id⟩

theorem spec_set {s s' : ServerState} {args w : List String} {c : Bool}
    (h : execSet s args = .ok s' w c) :
    w.length = 1 ∧ (ServerInv s → ServerInv s') := by
  unfold execSet at h
  split at h
  next k v =>
    injection h with h1 h2 h3
    subst h1
    subst h2
    exact ⟨rfl, inv_set k v⟩
  · injection h with h1 h2 h3; subst h1; subst h2; exact ⟨rfl, id⟩

theorem spec_setnx {s s' : ServerState} {args w : List String} {c : Bool}
    (h : execSetnx s args = .ok s' w c) :
    w.length = 1 ∧ (ServerInv s → ServerInv s') := by
  unfold execSetnx at h
  split at h
  next k v =>
    split at h
    · injection h with h1 h2 h3; subst h1; subst h2; exact ⟨rfl, id⟩
    · injection h with h1 h2 h3
      subst h1
      subst h2
      exact ⟨rfl, inv_set k v⟩
  · injection h with h1 h2 h3; subst h1; subst h2; exact ⟨rfl, id⟩

theorem spec_get {s s' : ServerState} {args w : List String} {c : Bool}
    (h : execGet s args = .ok s' w c) :
    w.length = 1 ∧ (ServerInv s → ServerInv s') := by
  unfold execGet at h
  split at h
  · split at h <;>
      (injection h with h1 h2 h3; subst h1; subst h2; exact ⟨rfl, id⟩)
  · injection h with h1 h2 h3; subst h1; subst h2; exact ⟨rfl, id⟩

theorem spec_exists {s s' : ServerState} {args w : List String} {c : Bool}
    (h : execExists s args = .ok s' w c) :
    w.length = 1 ∧ (ServerInv s → ServerInv s') := by
  unfold execExists at h
  split at h
  · split at h <;>
      (injection h with h1 h2 h3; subst h1; subst h2; exact ⟨rfl, id⟩)
  · injection h with h1 h2 h3; subst h1; subst h2; exact ⟨rfl, id⟩

theorem spec_incr {s s' : ServerState} {args w : List String} {c : Bool}
    (h : execIncr s args = .ok s' w c) :
    w.length = 1 ∧ (ServerInv s → ServerInv s') := by
  unfold execIncr at h
  split at h
  next k =>
    dsimp only at h
    split at h
    · injection h with h1 h2 h3; subst h1; subst h2; exact ⟨rfl, id⟩
    · split at h
      · injection h with h1 h2 h3
        subst h1
        subst h2
        exact ⟨rfl, inv_set k "0"⟩
      · split at h
        · injection h with h1 h2 h3; subst h1; subst h2; exact ⟨rfl, id⟩
        · injection h with h1 h2 h3
          subst h1
          subst h2
          exact ⟨rfl, inv_set k _⟩
  · injection h with h1 h2 h3; subst h1; subst h2; exact ⟨rfl, id⟩

theorem spec_incrby {s s' : ServerState} {args w : List String} {c : Bool}
    (h : execIncrby s args = .ok s' w c) :
    w.length = 1 ∧ (ServerInv s → ServerInv s') := by
  unfold execIncrby at h
  split at h
  next k a =>
    dsimp only at h
    split at h
    · injection h with h1 h2 h3; subst h1; subst h2; exact ⟨rfl, id⟩
    · split at h
      · split at h
        · injection h with h1 h2 h3; subst h1; subst h2; exact ⟨rfl, id⟩
        · injection h with h1 h2 h3
          subst h1
          subst h2
          exact ⟨rfl, inv_set k _⟩
      · split at h
        · injection h with h1 h2 h3; subst h1; subst h2; exact ⟨rfl, id⟩
        · split at h
          · injection h with h1 h2 h3; subst h1; subst h2; exact ⟨rfl, id⟩
          · injection h with h1 h2 h3
            subst h1
            subst h2
            exact ⟨rfl, inv_set k _⟩
  · injection h with h1 h2 h3; subst h1; subst h2; exact ⟨rfl, id⟩

theorem spec_decr {s s' : ServerState} {args w : List String} {c : Bool}
    (h : execDecr s args = .ok s' w c) :
    (ServerInv s → ServerInv s') ∧
      (¬ (∃ k, args = [k] ∧
            ¬ (s.getDBType k = some .tList ∨ s.getDBType k = some .tSet) ∧
            mget s.cur.kv k = none) → w.length = 1) := by
  unfold execDecr at h
  split at h
  next k =>
    dsimp only at h
    split at h
    next hty =>
      injection h with h1 h2 h3
      subst h1
      subst h2
      exact ⟨id, fun _ => rfl⟩
    next hty =>
      by_cases hg : (s.get k).2
      · rw [if_pos hg, if_pos hg] at h
        split at h
        · injection h with h1 h2 h3; subst h1; subst h2
          exact ⟨id, fun _ => rfl⟩
        · injection h with h1 h2 h3; subst h1; subst h2
          exact ⟨inv_set k _, fun _ => rfl⟩
      · rw [if_neg hg, if_neg hg] at h
        have hnone : mget s.cur.kv k = none := by
          unfold ServerState.get at hg
          split at hg
          · simp at hg
          next hn => exact hn
        split at h
        · injection h with h1 h2 h3; subst h1; subst h2
          exact ⟨fun hs => inv_set k "-1" hs,
            fun hc => absurd ⟨k, rfl, hty, hnone⟩ hc⟩
        · injection h with h1 h2 h3; subst h1; subst h2
          exact ⟨fun hs => inv_set k _ (inv_set k "-1" hs),
            fun hc => absurd ⟨k, rfl, hty, hnone⟩ hc⟩
  · injection h with h1 h2 h3; subst h1; subst h2; exact ⟨id, fun _ => rfl⟩

theorem spec_decrby {s s' : ServerState} {args w : List String} {c : Bool}
    (h : execDecrby s args = .ok s' w c) :
    w.length = 1 ∧ (ServerInv s → ServerInv s') := by
  unfold execDecrby at h
  split at h
  next k a =>
    dsimp only at h
    split at h
    · injection h with h1 h2 h3; subst h1; subst h2; exact ⟨rfl, id⟩
    · split at h
      · split at h
        · injection h with h1 h2 h3; subst h1; subst h2; exact ⟨rfl, id⟩
        · split at h
          · injection h with h1 h2 h3; subst h1; subst h2; exact ⟨rfl, id⟩
          · injection h with h1 h2 h3
            subst h1
            subst h2
            exact ⟨rfl, inv_set k _⟩
      · split at h
        · injection h with h1 h2 h3; subst h1; subst h2; exact ⟨rfl, id⟩
        · injection h with h1 h2 h3
          subst h1
          subst h2
          exact ⟨rfl, inv_set k _⟩
  · injection h with h1 h2 h3; subst h1; subst h2; exact ⟨rfl, id⟩

theorem spec_del {s s' : ServerState} {args w : List String} {c : Bool}
    (h : execDel s args = .ok s' w c) :
    w.length = 1 ∧ (ServerInv s → ServerInv s') := by
  unfold execDel at h
  split at h
  next k =>
    dsimp only at h
    split at h <;>
      (injection h with h1 h2 h3; subst h1; subst h2; exact ⟨rfl, inv_del k⟩)
  · injection h with h1 h2 h3; subst h1; subst h2; exact ⟨rfl, id⟩

theorem spec_type {s s' : ServerState} {args w : List String} {c : Bool}
    (h : execType s args = .ok s' w c) :
    w.length = 1 ∧ (ServerInv s → ServerInv s') := by
  unfold execType at h
  split at h <;>
    (injection h with h1 h2 h3; subst h1; subst h2; exact ⟨rfl, id⟩)

theorem spec_lpush {s s' : ServerState} {args w : List String} {c : Bool}
    (h : execLpush s args = .ok s' w c) :
    w.length = 1 ∧ (ServerInv s → ServerInv s') := by
  unfold execLpush at h
  split at h
  next k v =>
    split at h <;> (try dsimp only at h) <;>
      (injection h with h1 h2 h3; subst h1; subst h2)
    · exact ⟨rfl, inv_lpush k v⟩
    · exact ⟨rfl, inv_lpush k v⟩
    · exact ⟨rfl, id⟩
  · injection h with h1 h2 h3; subst h1; subst h2; exact ⟨rfl, id⟩

theorem spec_rpush {s s' : ServerState} {args w : List String} {c : Bool}
    (h : execRpush s args = .ok s' w c) :
    w.length = 1 ∧ (ServerInv s → ServerInv s') := by
  unfold execRpush at h
  split at h
  next k v =>
    split at h <;> (try dsimp only at h) <;>
      (injection h with h1 h2 h3; subst h1; subst h2)
    · exact ⟨rfl, inv_rpush k v⟩
    · exact ⟨rfl, inv_rpush k v⟩
    · exact ⟨rfl, id⟩
  · injection h with h1 h2 h3; subst h1; subst h2; exact ⟨rfl, id⟩

theorem spec_llen {s s' : ServerState} {args w : List String} {c : Bool}
    (h : execLlen s args = .ok s' w c) :
    w.length = 1 ∧ (ServerInv s → ServerInv s') := by
  unfold execLlen at h
  split at h
  · split at h <;>
      (injection h with h1 h2 h3; subst h1; subst h2; exact ⟨rfl, id⟩)
  · injection h with h1 h2 h3; subst h1; subst h2; exact ⟨rfl, id⟩

theorem spec_lrange {s s' : ServerState} {args w : List String} {c : Bool}
    (h : execLrange s args = .ok s' w c) :
    w.length = 1 ∧ (ServerInv s → ServerInv s') := by
  unfold execLrange at h
  split at h
  · split at h <;> try (injection h with h1 h2 h3; subst h1; subst h2; exact ⟨rfl, id⟩)
    · split at h
      · injection h with h1 h2 h3; subst h1; subst h2; exact ⟨rfl, id⟩
      · split at h
        · injection h with h1 h2 h3; subst h1; subst h2; exact ⟨rfl, id⟩
        · dsimp only at h
          split at h <;>
            (injection h with h1 h2 h3; subst h1; subst h2; exact ⟨rfl, id⟩)
  · injection h with h1 h2 h3; subst h1; subst h2; exact ⟨rfl, id⟩

theorem spec_lindex {s s' : ServerState} {args w : List String} {c : Bool}
    (h : execLindex s args = .ok s' w c) :
    w.length = 1 ∧ (ServerInv s → ServerInv s') := by
  unfold execLindex at h
  split at h
  · split at h <;> try (injection h with h1 h2 h3; subst h1; subst h2; exact ⟨rfl, id⟩)
    · split at h
      · injection h with h1 h2 h3; subst h1; subst h2; exact ⟨rfl, id⟩
      · dsimp only at h
        split at h <;>
          (injection h with h1 h2 h3; subst h1; subst h2; exact ⟨rfl, id⟩)
  · injection h with h1 h2 h3; subst h1; subst h2; exact ⟨rfl, id⟩

theorem spec_lpop {s s' : ServerState} {args w : List String} {c : Bool}
    (h : execLpop s args = .ok s' w c) :
    w.length = 1 ∧ (ServerInv s → ServerInv s') := by
  unfold execLpop at h
  split at h
  next k =>
    split at h <;> (try dsimp only at h) <;>
      (injection h with h1 h2 h3; subst h1; subst h2)
    · exact ⟨rfl, id⟩
    · exact ⟨rfl, id⟩
    · exact ⟨rfl, id⟩
    · exact ⟨rfl, inv_lpop k⟩
  · injection h with h1 h2 h3; subst h1; subst h2; exact ⟨rfl, id⟩

theorem spec_rpop {s s' : ServerState} {args w : List String} {c : Bool}
    (h : execRpop s args = .ok s' w c) :
    w.length = 1 ∧ (ServerInv s → ServerInv s') := by
  unfold execRpop at h
  split at h
  next k =>
    split at h <;> (try dsimp only at h) <;>
      (injection h with h1 h2 h3; subst h1; subst h2)
    · exact ⟨rfl, id⟩
    · exact ⟨rfl, id⟩
    · exact ⟨rfl, id⟩
    · exact ⟨rfl, inv_rpop k⟩
  · injection h with h1 h2 h3; subst h1; subst h2; exact ⟨rfl, id⟩

theorem spec_ltrim {s s' : ServerState} {args w : List String} {c : Bool}
    (h : execLtrim s args = .ok s' w c) :
    w.length = 1 ∧ (ServerInv s → ServerInv s') := by
  unfold execLtrim at h
  split at h
  next k a b =>
    split at h <;> try (injection h with h1 h2 h3; subst h1; subst h2; exact ⟨rfl, id⟩)
    · split at h
      · injection h with h1 h2 h3; subst h1; subst h2; exact ⟨rfl, id⟩
      next st hst =>
        split at h
        · injection h with h1 h2 h3; subst h1; subst h2; exact ⟨rfl, id⟩
        next en hen =>
          dsimp only at h
          split at h
          · injection h with h1 h2 h3
            subst h1
            subst h2
            exact ⟨rfl, inv_ltrim k st en⟩
          · injection h with h1 h2 h3
            subst h1
            subst h2
            exact ⟨rfl, fun hs => inv_del k (inv_ltrim k st en hs)⟩
  · injection h with h1 h2 h3; subst h1; subst h2; exact ⟨rfl, id⟩

theorem spec_lset {s s' : ServerState} {args w : List String} {c : Bool}
    (h : execLset s args = .ok s' w c) :
    w.length = 1 ∧ (ServerInv s → ServerInv s') := by
  unfold execLset at h
  split at h
  next k a v =>
    split at h <;> try (injection h with h1 h2 h3; subst h1; subst h2; exact ⟨rfl, id⟩)
    · split at h
      · injection h with h1 h2 h3; subst h1; subst h2; exact ⟨rfl, id⟩
      next i hi =>
        dsimp only at h
        split at h <;>
          (injection h with h1 h2 h3; subst h1; subst h2;
           exact ⟨rfl, inv_lset k i v⟩)
  · injection h with h1 h2 h3; subst h1; subst h2; exact ⟨rfl, id⟩

theorem spec_lrem {s s' : ServerState} {args w : List String} {c : Bool}
    (h : execLrem s args = .ok s' w c) :
    w.length = 1 ∧ (ServerInv s → ServerInv s') := by
  unfold execLrem at h
  split at h
  next k a v =>
    split at h <;> try (injection h with h1 h2 h3; subst h1; subst h2; exact ⟨rfl, id⟩)
    · split at h
      · injection h with h1 h2 h3; subst h1; subst h2; exact ⟨rfl, id⟩
      next cnt hcnt =>
        dsimp only at h
        injection h with h1 h2 h3
        subst h1
        subst h2
        exact ⟨rfl, inv_lrem k cnt v⟩
  · injection h with h1 h2 h3; subst h1; subst h2; exact ⟨rfl, id⟩

theorem spec_sadd {s s' : ServerState} {args w : List String} {c : Bool}
    (h : execSadd s args = .ok s' w c) :
    w.length = 1 ∧ (ServerInv s → ServerInv s') := by
  unfold execSadd at h
  split at h
  next k m =>
    dsimp only at h
    injection h with h1 h2 h3
    subst h1
    subst h2
    exact ⟨rfl, inv_sadd k m⟩
  · injection h with h1 h2 h3; subst h1; subst h2; exact ⟨rfl, id⟩

theorem spec_srem {s s' : ServerState} {args w : List String} {c : Bool}
    (h : execSrem s args = .ok s' w c) :
    w.length = 1 ∧ (ServerInv s → ServerInv s') := by
  unfold execSrem at h
  split at h
  next k m =>
    dsimp only at h
    injection h with h1 h2 h3
    subst h1
    subst h2
    exact ⟨rfl, inv_srem k m⟩
  · injection h with h1 h2 h3; subst h1; subst h2; exact ⟨rfl, id⟩

theorem spec_scard {s s' : ServerState} {args w : List String} {c : Bool}
    (h : execScard s args = .ok s' w c) :
    w.length = 1 ∧ (ServerInv s → ServerInv s') := by
  unfold execScard at h
  split at h <;>
    (injection h with h1 h2 h3; subst h1; subst h2; exact ⟨rfl, id⟩)

theorem spec_sismember {s s' : ServerState} {args w : List String} {c : Bool}
    (h : execSismember s args = .ok s' w c) :
    w.length = 1 ∧ (ServerInv s → ServerInv s') := by
  unfold execSismember at h
  split at h <;>
    (injection h with h1 h2 h3; subst h1; subst h2; exact ⟨rfl, id⟩)

theorem spec_sinter {s s' : ServerState} {args w : List String} {c : Bool}
    (h : execSinter s args = .ok s' w c) :
    w.length = 1 ∧ (ServerInv s → ServerInv s') := by
  unfold execSinter at h
  split at h
  · injection h with h1 h2 h3; subst h1; subst h2; exact ⟨rfl, id⟩
  · split at h
    · injection h with h1 h2 h3; subst h1; subst h2; exact ⟨rfl, id⟩
    · dsimp only at h
      split at h <;>
        (injection h with h1 h2 h3; subst h1; subst h2; exact ⟨rfl, id⟩)

theorem spec_sinterstore {s s' : ServerState} {args w : List String} {c : Bool}
    (h : execSinterstore s args = .ok s' w c) :
    w.length = 1 ∧ (ServerInv s → ServerInv s') := by
  unfold execSinterstore at h
  split at h
  · injection h with h1 h2 h3; subst h1; subst h2; exact ⟨rfl, id⟩
  · split at h
    · injection h with h1 h2 h3; subst h1; subst h2; exact ⟨rfl, id⟩
    · split at h
      · injection h with h1 h2 h3; subst h1; subst h2; exact ⟨rfl, id⟩
      · split at h
        · injection h with h1 h2 h3; subst h1; subst h2; exact ⟨rfl, id⟩
        · injection h with h1 h2 h3
          subst h1
          subst h2
          exact ⟨rfl, inv_sinterstore _ _⟩

theorem spec_smembers {s s' : ServerState} {args w : List String} {c : Bool}
    (h : execSmembers s args = .ok s' w c) :
    w.length = 1 ∧ (ServerInv s → ServerInv s') := by
  unfold execSmembers at h
  split at h
  · split at h <;>
      (injection h with h1 h2 h3; subst h1; subst h2; exact ⟨rfl, id⟩)
  · injection h with h1 h2 h3; subst h1; subst h2; exact ⟨rfl, id⟩


/-- Every non-crashing dispatch preserves the type-index invariant. -/
theorem exec_preserves_inv {s s' : ServerState} {ci : Nat} {cmd : String}
    {args w : List String} {c : Bool}
    (h : ExecuteCommand s ci cmd args = .ok s' w c) (hs : ServerInv s) :
    ServerInv s' := by
  rw [ExecuteCommand.eq_def] at h
  by_cases hc0 : cmd = "PING"
  · rw [if_pos hc0] at h
    exact (spec_ping h).2 hs
  rw [if_neg hc0] at h
  by_cases hc1 : cmd = "QUIT"
  · rw [if_pos hc1] at h
    exact (spec_quit h).2 hs
  rw [if_neg hc1] at h
  by_cases hc2 : cmd = "INFO"
  · rw [if_pos hc2] at h
    exact (spec_info h).2 hs
  rw [if_neg hc2] at h
  by_cases hc3 : cmd = "SAVE"
  · rw [if_pos hc3] at h
    exact (spec_save h).2 hs
  rw [if_neg hc3] at h
  by_cases hc4 : cmd = "BGSAVE"
  · rw [if_pos hc4] at h
    exact (spec_bgsave h).2 hs
  rw [if_neg hc4] at h
  by_cases hc5 : cmd = "LASTSAVE"
  · rw [if_pos hc5] at h
    exact (spec_lastsave h).2 hs
  rw [if_neg hc5] at h
  by_cases hc6 : cmd = "SHUTDOWN"
  · rw [if_pos hc6] at h
    exact (spec_shutdown h).2 hs
  rw [if_neg hc6] at h
  by_cases hc7 : cmd = "KEYS"
  · rw [if_pos hc7] at h
    exact (spec_keys h).2 hs
  rw [if_neg hc7] at h
  by_cases hc8 : cmd = "RANDOMKEY"
  · rw [if_pos hc8] at h
    exact (spec_randomkey h).2 hs
  rw [if_neg hc8] at h
  by_cases hc9 : cmd = "RENAME"
  · rw [if_pos hc9] at h
    exact (spec_rename h).2 hs
  rw [if_neg hc9] at h
  by_cases hc10 : cmd = "RENAMENX"
  · rw [if_pos hc10] at h
    exact (spec_renamenx h).2 hs
  rw [if_neg hc10] at h
  by_cases hc11 : cmd = "DBSIZE"
  · rw [if_pos hc11] at h
    exact (spec_dbsize h).2 hs
  rw [if_neg hc11] at h
  by_cases hc12 : cmd = "SELECT"
  · rw [if_pos hc12] at h
    exact (spec_select h).2 hs
  rw [if_neg hc12] at h
  by_cases hc13 : cmd = "MOVE"
  · rw [if_pos hc13] at h
    exact (spec_move h).2 hs
  rw [if_neg hc13] at h
  by_cases hc14 : cmd = "FLUSHDB"
  · rw [if_pos hc14] at h
    exact (spec_flushdb h).2 hs
  rw [if_neg hc14] at h
  by_cases hc15 : cmd = "FLUSHALL"
  · rw [if_pos hc15] at h
    exact (spec_flushall h).2 hs
  rw [if_neg hc15] at h
  by_cases hc16 : cmd = "SET"
  · rw [if_pos hc16] at h
    exact (spec_set h).2 hs
  rw [if_neg hc16] at h
  by_cases hc17 : cmd = "SETNX"
  · rw [if_pos hc17] at h
    exact (spec_setnx h).2 hs
  rw [if_neg hc17] at h
  by_cases hc18 : cmd = "GET"
  · rw [if_pos hc18] at h
    exact (spec_get h).2 hs
  rw [if_neg hc18] at h
  by_cases hc19 : cmd = "EXISTS"
  · rw [if_pos hc19] at h
    exact (spec_exists h).2 hs
  rw [if_neg hc19] at h
  by_cases hc20 : cmd = "INCR"
  · rw [if_pos hc20] at h
    exact (spec_incr h).2 hs
  rw [if_neg hc20] at h
  by_cases hc21 : cmd = "INCRBY"
  · rw [if_pos hc21] at h
    exact (spec_incrby h).2 hs
  rw [if_neg hc21] at h
  by_cases hc22 : cmd = "DECR"
  · rw [if_pos hc22] at h
    exact (spec_decr h).1 hs
  rw [if_neg hc22] at h
  by_cases hc23 : cmd = "DECRBY"
  · rw [if_pos hc23] at h
    exact (spec_decrby h).2 hs
  rw [if_neg hc23] at h
  by_cases hc24 : cmd = "DEL"
  · rw [if_pos hc24] at h
    exact (spec_del h).2 hs
  rw [if_neg hc24] at h
  by_cases hc25 : cmd = "TYPE"
  · rw [if_pos hc25] at h
    exact (spec_type h).2 hs
  rw [if_neg hc25] at h
  by_cases hc26 : cmd = "LPUSH"
  · rw [if_pos hc26] at h
    exact (spec_lpush h).2 hs
  rw [if_neg hc26] at h
  by_cases hc27 : cmd = "RPUSH"
  · rw [if_pos hc27] at h
    exact (spec_rpush h).2 hs
  rw [if_neg hc27] at h
  by_cases hc28 : cmd = "LLEN"
  · rw [if_pos hc28] at h
    exact (spec_llen h).2 hs
  rw [if_neg hc28] at h
  by_cases hc29 : cmd = "LRANGE"
  · rw [if_pos hc29] at h
    exact (spec_lrange h).2 hs
  rw [if_neg hc29] at h
  by_cases hc30 : cmd = "LINDEX"
  · rw [if_pos hc30] at h
    exact (spec_lindex h).2 hs
  rw [if_neg hc30] at h
  by_cases hc31 : cmd = "LPOP"
  · rw [if_pos hc31] at h
    exact (spec_lpop h).2 hs
  rw [if_neg hc31] at h
  by_cases hc32 : cmd = "RPOP"
  · rw [if_pos hc32] at h
    exact (spec_rpop h).2 hs
  rw [if_neg hc32] at h
  by_cases hc33 : cmd = "LTRIM"
  · rw [if_pos hc33] at h
    exact (spec_ltrim h).2 hs
  rw [if_neg hc33] at h
  by_cases hc34 : cmd = "LSET"
  · rw [if_pos hc34] at h
    exact (spec_lset h).2 hs
  rw [if_neg hc34] at h
  by_cases hc35 : cmd = "LREM"
  · rw [if_pos hc35] at h
    exact (spec_lrem h).2 hs
  rw [if_neg hc35] at h
  by_cases hc36 : cmd = "SADD"
  · rw [if_pos hc36] at h
    exact (spec_sadd h).2 hs
  rw [if_neg hc36] at h
  by_cases hc37 : cmd = "SREM"
  · rw [if_pos hc37] at h
    exact (spec_srem h).2 hs
  rw [if_neg hc37] at h
  by_cases hc38 : cmd = "SCARD"
  · rw [if_pos hc38] at h
    exact (spec_scard h).2 hs
  rw [if_neg hc38] at h
  by_cases hc39 : cmd = "SISMEMBER"
  · rw [if_pos hc39] at h
    exact (spec_sismember h).2 hs
  rw [if_neg hc39] at h
  by_cases hc40 : cmd = "SINTER"
  · rw [if_pos hc40] at h
    exact (spec_sinter h).2 hs
  rw [if_neg hc40] at h
  by_cases hc41 : cmd = "SINTERSTORE"
  · rw [if_pos hc41] at h
    exact (spec_sinterstore h).2 hs
  rw [if_neg hc41] at h
  by_cases hc42 : cmd = "SMEMBERS"
  · rw [if_pos hc42] at h
    exact (spec_smembers h).2 hs
  rw [if_neg hc42] at h
  injection h with h1 h2 h3
  subst h1
  exact hs

/-- Every non-crashing dispatch other than QUIT, SHUTDOWN and the DECR
double-write case makes exactly one reply write. -/
theorem exec_single_reply {s s' : ServerState} {ci : Nat} {cmd : String}
    {args w : List String} {c : Bool}
    (h : ExecuteCommand s ci cmd args = .ok s' w c)
    (hq : cmd ≠ "QUIT") (hsd : cmd ≠ "SHUTDOWN")
    (hd : ¬ decrDoubleWrite s cmd args) : w.length = 1 := by
  rw [ExecuteCommand.eq_def] at h
  by_cases hd0 : cmd = "PING"
  · rw [if_pos hd0] at h
    exact (spec_ping h).1
  rw [if_neg hd0] at h
  by_cases hd1 : cmd = "QUIT"
  · exact absurd hd1 hq
  rw [if_neg hd1] at h
  by_cases hd2 : cmd = "INFO"
  · rw [if_pos hd2] at h
    exact (spec_info h).1
  rw [if_neg hd2] at h
  by_cases hd3 : cmd = "SAVE"
  · rw [if_pos hd3] at h
    exact (spec_save h).1
  rw [if_neg hd3] at h
  by_cases hd4 : cmd = "BGSAVE"
  · rw [if_pos hd4] at h
    exact (spec_bgsave h).1
  rw [if_neg hd4] at h
  by_cases hd5 : cmd = "LASTSAVE"
  · rw [if_pos hd5] at h
    exact (spec_lastsave h).1
  rw [if_neg hd5] at h
  by_cases hd6 : cmd = "SHUTDOWN"
  · exact absurd hd6 hsd
  rw [if_neg hd6] at h
  by_cases hd7 : cmd = "KEYS"
  · rw [if_pos hd7] at h
    exact (spec_keys h).1
  rw [if_neg hd7] at h
  by_cases hd8 : cmd = "RANDOMKEY"
  · rw [if_pos hd8] at h
    exact (spec_randomkey h).1
  rw [if_neg hd8] at h
  by_cases hd9 : cmd = "RENAME"
  · rw [if_pos hd9] at h
    exact (spec_rename h).1
  rw [if_neg hd9] at h
  by_cases hd10 : cmd = "RENAMENX"
  · rw [if_pos hd10] at h
    exact (spec_renamenx h).1
  rw [if_neg hd10] at h
  by_cases hd11 : cmd = "DBSIZE"
  · rw [if_pos hd11] at h
    exact (spec_dbsize h).1
  rw [if_neg hd11] at h
  by_cases hd12 : cmd = "SELECT"
  · rw [if_pos hd12] at h
    exact (spec_select h).1
  rw [if_neg hd12] at h
  by_cases hd13 : cmd = "MOVE"
  · rw [if_pos hd13] at h
    exact (spec_move h).1
  rw [if_neg hd13] at h
  by_cases hd14 : cmd = "FLUSHDB"
  · rw [if_pos hd14] at h
    exact (spec_flushdb h).1
  rw [if_neg hd14] at h
  by_cases hd15 : cmd = "FLUSHALL"
  · rw [if_pos hd15] at h
    exact (spec_flushall h).1
  rw [if_neg hd15] at h
  by_cases hd16 : cmd = "SET"
  · rw [if_pos hd16] at h
    exact (spec_set h).1
  rw [if_neg hd16] at h
  by_cases hd17 : cmd = "SETNX"
  · rw [if_pos hd17] at h
    exact (spec_setnx h).1
  rw [if_neg hd17] at h
  by_cases hd18 : cmd = "GET"
  · rw [if_pos hd18] at h
    exact (spec_get h).1
  rw [if_neg hd18] at h
  by_cases hd19 : cmd = "EXISTS"
  · rw [if_pos hd19] at h
    exact (spec_exists h).1
  rw [if_neg hd19] at h
  by_cases hd20 : cmd = "INCR"
  · rw [if_pos hd20] at h
    exact (spec_incr h).1
  rw [if_neg hd20] at h
  by_cases hd21 : cmd = "INCRBY"
  · rw [if_pos hd21] at h
    exact (spec_incrby h).1
  rw [if_neg hd21] at h
  by_cases hd22 : cmd = "DECR"
  · rw [if_pos hd22] at h
    refine (spec_decr h).2 ?_
    intro hex
    exact hd ⟨hd22, hex⟩
  rw [if_neg hd22] at h
  by_cases hd23 : cmd = "DECRBY"
  · rw [if_pos hd23] at h
    exact (spec_decrby h).1
  rw [if_neg hd23] at h
  by_cases hd24 : cmd = "DEL"
  · rw [if_pos hd24] at h
    exact (spec_del h).1
  rw [if_neg hd24] at h
  by_cases hd25 : cmd = "TYPE"
  · rw [if_pos hd25] at h
    exact (spec_type h).1
  rw [if_neg hd25] at h
  by_cases hd26 : cmd = "LPUSH"
  · rw [if_pos hd26] at h
    exact (spec_lpush h).1
  rw [if_neg hd26] at h
  by_cases hd27 : cmd = "RPUSH"
  · rw [if_pos hd27] at h
    exact (spec_rpush h).1
  rw [if_neg hd27] at h
  by_cases hd28 : cmd = "LLEN"
  · rw [if_pos hd28] at h
    exact (spec_llen h).1
  rw [if_neg hd28] at h
  by_cases hd29 : cmd = "LRANGE"
  · rw [if_pos hd29] at h
    exact (spec_lrange h).1
  rw [if_neg hd29] at h
  by_cases hd30 : cmd = "LINDEX"
  · rw [if_pos hd30] at h
    exact (spec_lindex h).1
  rw [if_neg hd30] at h
  by_cases hd31 : cmd = "LPOP"
  · rw [if_pos hd31] at h
    exact (spec_lpop h).1
  rw [if_neg hd31] at h
  by_cases hd32 : cmd = "RPOP"
  · rw [if_pos hd32] at h
    exact (spec_rpop h).1
  rw [if_neg hd32] at h
  by_cases hd33 : cmd = "LTRIM"
  · rw [if_pos hd33] at h
    exact (spec_ltrim h).1
  rw [if_neg hd33] at h
  by_cases hd34 : cmd = "LSET"
  · rw [if_pos hd34] at h
    exact (spec_lset h).1
  rw [if_neg hd34] at h
  by_cases hd35 : cmd = "LREM"
  · rw [if_pos hd35] at h
    exact (spec_lrem h).1
  rw [if_neg hd35] at h
  by_cases hd36 : cmd = "SADD"
  · rw [if_pos hd36] at h
    exact (spec_sadd h).1
  rw [if_neg hd36] at h
  by_cases hd37 : cmd = "SREM"
  · rw [if_pos hd37] at h
    exact (spec_srem h).1
  rw [if_neg hd37] at h
  by_cases hd38 : cmd = "SCARD"
  · rw [if_pos hd38] at h
    exact (spec_scard h).1
  rw [if_neg hd38] at h
  by_cases hd39 : cmd = "SISMEMBER"
  · rw [if_pos hd39] at h
    exact (spec_sismember h).1
  rw [if_neg hd39] at h
  by_cases hd40 : cmd = "SINTER"
  · rw [if_pos hd40] at h
    exact (spec_sinter h).1
  rw [if_neg hd40] at h
  by_cases hd41 : cmd = "SINTERSTORE"
  · rw [if_pos hd41] at h
    exact (spec_sinterstore h).1
  rw [if_neg hd41] at h
  by_cases hd42 : cmd = "SMEMBERS"
  · rw [if_pos hd42] at h
    exact (spec_smembers h).1
  rw [if_neg hd42] at h
  injection h with h1 h2 h3
  subst h2
  rfl

theorem getDBType_del (s : ServerState) (k : String) :
    ((s.del k).1).getDBType k = none := by
  unfold ServerState.getDBType ServerState.del
  dsimp only
  split
  · rw [cur_setCur]
    dsimp only
    rw [mget_mdel, if_pos rfl]
  · split
    · rw [cur_setCur]
      dsimp only
      rw [mget_mdel, if_pos rfl]
    · split
      · rw [cur_setCur]
        dsimp only
        rw [mget_mdel, if_pos rfl]
      · rw [cur_setCur]
        dsimp only
        rw [mget_mdel, if_pos rfl]

/-- C1, counterexample: from the initial state, LPUSH k a followed by SET k v
is a reachable history after which the key sits in the string store and in
the list store at once — `set` never removes the old container — so the
claimed exactly-one correspondence between the type index and the typed maps
is false on the code. -/
theorem c1_counterexample :
    Reachable ((ExecuteCommand ((ExecuteCommand initialServer 0 "LPUSH"
        ["k", "a"]).stateD initialServer) 0 "SET" ["k", "v"]).stateD
        initialServer) ∧
    mget ((ExecuteCommand ((ExecuteCommand initialServer 0 "LPUSH"
        ["k", "a"]).stateD initialServer) 0 "SET" ["k", "v"]).stateD
        initialServer).cur.kv "k" = some "v" ∧
    mget ((ExecuteCommand ((ExecuteCommand initialServer 0 "LPUSH"
        ["k", "a"]).stateD initialServer) 0 "SET" ["k", "v"]).stateD
        initialServer).cur.ll "k" = some ["a"] ∧
    ¬ TypeIndexExact ((ExecuteCommand ((ExecuteCommand initialServer 0 "LPUSH"
        ["k", "a"]).stateD initialServer) 0 "SET" ["k", "v"]).stateD
        initialServer).cur := by
  have h1 : ExecuteCommand initialServer 0 "LPUSH" ["k", "a"] =
      .ok ((ExecuteCommand initialServer 0 "LPUSH" ["k", "a"]).stateD
        initialServer) [intReply "1"] true := rfl
  have h2 : ExecuteCommand ((ExecuteCommand initialServer 0 "LPUSH"
      ["k", "a"]).stateD initialServer) 0 "SET" ["k", "v"] =
      .ok ((ExecuteCommand ((ExecuteCommand initialServer 0 "LPUSH"
        ["k", "a"]).stateD initialServer) 0 "SET" ["k", "v"]).stateD
        initialServer) [okStatus] true := rfl
  refine ⟨Reachable.step (Reachable.step Reachable.init h1) h2, rfl, rfl, ?_⟩
  intro h
  exact absurd ((h "k").mp rfl) (by decide)

/-- C1, amended: in every reachable state the type index is truthful in one
direction — the typed map named by a key's type-index entry does hold the
key.  The exactly-one half of the claim fails (see the counterexample): a
key can linger in further typed maps beyond the indexed one. -/
theorem c1_invariant (s : ServerState) (h : Reachable s) : ServerInv s := by
  induction h with
  | init =>
    intro i q t hq
    simp [initialServer, NewDB, mget] at hq
  | step hr hstep ih => exact exec_preserves_inv hstep ih

/-- C1 witness: the amended invariant at a concrete reachable state. -/
theorem c1_invariant_witness :
    ServerInv ((ExecuteCommand initialServer 0 "SET" ["a", "b"]).stateD
      initialServer) := by
  have h1 : ExecuteCommand initialServer 0 "SET" ["a", "b"] =
      .ok ((ExecuteCommand initialServer 0 "SET" ["a", "b"]).stateD
        initialServer) [okStatus] true := rfl
  exact c1_invariant _ (Reachable.step Reachable.init h1)

/-- C2, counterexample: RPUSH k a then LPOP k removes the last element of the
list, yet the key is not deleted — the list store keeps an empty list, the
type index keeps the entry, and EXISTS replies the integer 1, not 0. -/
theorem c2_counterexample :
    Reachable ((ExecuteCommand ((ExecuteCommand initialServer 0 "RPUSH"
        ["k", "a"]).stateD initialServer) 0 "LPOP" ["k"]).stateD
        initialServer) ∧
    mget ((ExecuteCommand ((ExecuteCommand initialServer 0 "RPUSH"
        ["k", "a"]).stateD initialServer) 0 "LPOP" ["k"]).stateD
        initialServer).cur.ll "k" = some [] ∧
    mget ((ExecuteCommand ((ExecuteCommand initialServer 0 "RPUSH"
        ["k", "a"]).stateD initialServer) 0 "LPOP" ["k"]).stateD
        initialServer).cur.tstore "k" = some .tList ∧
    (ExecuteCommand ((ExecuteCommand ((ExecuteCommand initialServer 0 "RPUSH"
        ["k", "a"]).stateD initialServer) 0 "LPOP" ["k"]).stateD
        initialServer) 0 "EXISTS" ["k"]).writes = [intReply "1"] := by
  have h1 : ExecuteCommand initialServer 0 "RPUSH" ["k", "a"] =
      .ok ((ExecuteCommand initialServer 0 "RPUSH" ["k", "a"]).stateD
        initialServer) [intReply "1"] true := rfl
  have h2 : ExecuteCommand ((ExecuteCommand initialServer 0 "RPUSH"
      ["k", "a"]).stateD initialServer) 0 "LPOP" ["k"] =
      .ok ((ExecuteCommand ((ExecuteCommand initialServer 0 "RPUSH"
        ["k", "a"]).stateD initialServer) 0 "LPOP" ["k"]).stateD
        initialServer) [bulkString "a"] true := rfl
  exact ⟨Reachable.step (Reachable.step Reachable.init h1) h2, rfl, rfl, rfl⟩

/-- C2, amended: only LTRIM deletes a key whose list becomes empty — with
normalized start above normalized end it deletes the key and replies the
empty list — while LPOP and RPOP on a one-element list pop the element but
leave the key in the type index with an empty list (EXISTS still replies 1),
and SREM of the last member likewise keeps the key with an empty set. -/
theorem c2_amended :
    (∀ (s : ServerState) (k v : String),
      s.getDBType k = some .tList → mget s.cur.ll k = some [v] →
        execLpop s [k] = .ok (s.lpop k).1 [bulkString v] true ∧
        (s.lpop k).1.getDBType k = some .tList ∧
        mget (s.lpop k).1.cur.ll k = some [] ∧
        execExists (s.lpop k).1 [k] = .ok (s.lpop k).1 [intReply "1"] true) ∧
    (∀ (s : ServerState) (k v : String),
      s.getDBType k = some .tList → mget s.cur.ll k = some [v] →
        execRpop s [k] = .ok (s.rpop k).1 [bulkString v] true ∧
        (s.rpop k).1.getDBType k = some .tList ∧
        mget (s.rpop k).1.cur.ll k = some [] ∧
        execExists (s.rpop k).1 [k] = .ok (s.rpop k).1 [intReply "1"] true) ∧
    (∀ (s : ServerState) (k m : String),
      s.getDBType k = some .tSet → mget s.cur.s k = some [m] →
        execSrem s [k, m] = .ok (s.srem k m).1 [intReply "1"] true ∧
        (s.srem k m).1.getDBType k = some .tSet ∧
        mget (s.srem k m).1.cur.s k = some [] ∧
        execExists (s.srem k m).1 [k] =
          .ok (s.srem k m).1 [intReply "1"] true) ∧
    (∀ (s : ServerState) (k a b : String) (st en : Int),
      atoi? a = some st → atoi? b = some en →
      s.getDBType k = some .tList →
      normStart st > normEnd (((mget s.cur.ll k).getD []).length : Int) en →
        execLtrim s [k, a, b] = .ok (s.del k).1 [emptySetOrList] true ∧
        ((s.del k).1).getDBType k = none) := by
  refine ⟨?_, ?_, ?_, ?_⟩
  · intro s k v ht hl
    have hlp : s.lpop k = (s.setCur { s.cur with ll := mset s.cur.ll k [] }, v) := by
      unfold ServerState.lpop
      rw [hl]
    have hdb : (s.lpop k).1.getDBType k = some .tList := by
      rw [hlp]
      unfold ServerState.getDBType
      rw [cur_setCur]
      exact ht
    refine ⟨?_, hdb, ?_, ?_⟩
    · unfold execLpop
      dsimp only
      rw [ht]
      dsimp only
      rw [hlp]
    · rw [hlp]
      dsimp only
      rw [cur_setCur]
      dsimp only
      rw [mget_mset, if_pos rfl]
    · unfold execExists
      dsimp only
      rw [hdb]
      rfl
  · intro s k v ht hl
    have hlp : s.rpop k = (s.setCur { s.cur with ll := mset s.cur.ll k [] }, v) := by
      unfold ServerState.rpop
      rw [hl]
      rfl
    have hdb : (s.rpop k).1.getDBType k = some .tList := by
      rw [hlp]
      unfold ServerState.getDBType
      rw [cur_setCur]
      exact ht
    refine ⟨?_, hdb, ?_, ?_⟩
    · unfold execRpop
      dsimp only
      rw [ht]
      dsimp only
      rw [hlp]
    · rw [hlp]
      dsimp only
      rw [cur_setCur]
      dsimp only
      rw [mget_mset, if_pos rfl]
    · unfold execExists
      dsimp only
      rw [hdb]
      rfl
  · intro s k m ht hs
    have hsr : s.srem k m =
        (s.setCur { s.cur with s := mset s.cur.s k (List.erase [m] m) }, "1") := by
      unfold ServerState.srem
      rw [ht]
      dsimp only
      rw [hs]
      dsimp only
      rw [if_pos (by simp)]
    have her : List.erase [m] m = [] := by simp
    have hdb : (s.srem k m).1.getDBType k = some .tSet := by
      rw [hsr]
      unfold ServerState.getDBType
      rw [cur_setCur]
      exact ht
    refine ⟨?_, hdb, ?_, ?_⟩
    · unfold execSrem
      dsimp only
      rw [hsr]
    · rw [hsr]
      dsimp only
      rw [cur_setCur]
      dsimp only
      rw [mget_mset, if_pos rfl, her]
    · unfold execExists
      dsimp only
      rw [hdb]
      rfl
  · intro s k a b st en ha hb ht hgt
    refine ⟨?_, getDBType_del s k⟩
    unfold execLtrim
    dsimp only
    rw [ht]
    dsimp only
    rw [ha]
    dsimp only
    rw [hb]
    dsimp only
    have hl : s.ltrim k st en = (s, false) := by
      unfold ServerState.ltrim
      dsimp only
      rw [if_pos hgt]
    rw [hl]
    rfl

/-- C2 witness: the amended statement at concrete one-element containers. -/
theorem c2_amended_witness :
    ((((ExecuteCommand initialServer 0 "RPUSH" ["k", "a"]).stateD
        initialServer).lpop "k").1.getDBType "k" = some DTyp.tList) ∧
    ((((ExecuteCommand initialServer 0 "RPUSH" ["k", "a"]).stateD
        initialServer).rpop "k").1.getDBType "k" = some DTyp.tList) ∧
    ((((ExecuteCommand initialServer 0 "SADD" ["k", "m"]).stateD
        initialServer).srem "k" "m").1.getDBType "k" = some DTyp.tSet) ∧
    ((((ExecuteCommand initialServer 0 "RPUSH" ["k", "a"]).stateD
        initialServer).del "k").1.getDBType "k" = none) := by
  exact ⟨(c2_amended.1 ((ExecuteCommand initialServer 0 "RPUSH"
      ["k", "a"]).stateD initialServer) "k" "a" rfl rfl).2.1,
    (c2_amended.2.1 ((ExecuteCommand initialServer 0 "RPUSH"
      ["k", "a"]).stateD initialServer) "k" "a" rfl rfl).2.1,
    (c2_amended.2.2.1 ((ExecuteCommand initialServer 0 "SADD"
      ["k", "m"]).stateD initialServer) "k" "m" rfl rfl).2.1,
    (c2_amended.2.2.2 ((ExecuteCommand initialServer 0 "RPUSH"
      ["k", "a"]).stateD initialServer) "k" "100" "0" 100 0 rfl rfl rfl
      (by decide)).2⟩

/-- C3, counterexample: DECR on a key absent from the current database is one
successfully dispatched request that writes two replies, `:-1` and then
`:-2` (the missing-key branch stores "-1" and writes its reply but does not
return, and the fall-through decrements again). -/
theorem c3_counterexample :
    ExecuteCommand initialServer 0 "DECR" ["k"] =
      .ok ((initialServer.set "k" "-1").set "k" "-2")
        [intReply "-1", intReply "-2"] true ∧
    ([intReply "-1", intReply "-2"] : List String).length ≠ 1 :=
  ⟨rfl, by decide⟩

/-- C3, amended: every dispatched command that returns (does not crash)
writes exactly one reply, except QUIT and SHUTDOWN, which write none, and
DECR on an absent key of non-container type, which writes two. -/
theorem c3_amended {s s' : ServerState} {ci : Nat} {cmd : String}
    {args w : List String} {c : Bool}
    (h : ExecuteCommand s ci cmd args = .ok s' w c)
    (hq : cmd ≠ "QUIT") (hsd : cmd ≠ "SHUTDOWN")
    (hd : ¬ decrDoubleWrite s cmd args) : w.length = 1 :=
  exec_single_reply h hq hsd hd

/-- C3 witness: the amended statement at a concrete dispatch. -/
theorem c3_amended_witness : ([simpleString "PONG"] : List String).length = 1 :=
  @c3_amended initialServer initialServer 0 "PING" [] [simpleString "PONG"]
    true rfl (by decide) (by decide)
    (fun hdd => absurd hdd.1 (by decide))

/-- C4, counterexample: the selected-database index is a single server-global
field — SELECT 1 issued on connection 0 moves connection 1's subsequent SET
into database 1, and database 0 never sees the key. -/
theorem c4_counterexample :
    ((ExecuteCommand initialServer 0 "SELECT" ["1"]).stateD initialServer).sp
        = (1 : Fin 10) ∧
    mget (((ExecuteCommand ((ExecuteCommand initialServer 0 "SELECT"
        ["1"]).stateD initialServer) 1 "SET" ["kk", "vv"]).stateD
        initialServer).store 1).kv "kk" = some "vv" ∧
    mget (((ExecuteCommand ((ExecuteCommand initialServer 0 "SELECT"
        ["1"]).stateD initialServer) 1 "SET" ["kk", "vv"]).stateD
        initialServer).store 0).kv "kk" = none :=
  ⟨rfl, rfl, rfl⟩

/-- C4, amended: the selected-database index is shared by every connection:
a SELECT n dispatched with any connection index rewrites the global select
pointer, the databases untouched, and a SET dispatched afterwards with any
other connection index lands in database n. -/
theorem c4_amended (s : ServerState) (c1 c2 : Nat) (nstr : String) (n : Int)
    (hn : atoi? nstr = some n) (hr : ¬ (n > 9 ∨ n < 0)) :
    ∃ s1, ExecuteCommand s c1 "SELECT" [nstr] = .ok s1 [okStatus] true ∧
      (s1.sp : Int) = n ∧ s1.store = s.store ∧
      ∀ k v, ExecuteCommand s1 c2 "SET" [k, v] =
          .ok (s1.set k v) [okStatus] true ∧
        mget ((s1.set k v).store s1.sp).kv k = some v := by
  have he : ExecuteCommand s c1 "SELECT" [nstr] = execSelect s [nstr] := rfl
  rw [he]
  unfold execSelect
  dsimp only
  rw [hn]
  dsimp only
  rw [dif_neg hr]
  refine ⟨_, rfl, ?_, rfl, ?_⟩
  · show ((n.toNat : Nat) : Int) = n
    omega
  · intro k v
    refine ⟨rfl, ?_⟩
    show mget ((ServerState.set _ k v).store _).kv k = some v
    unfold ServerState.set ServerState.setCur
    dsimp only
    rw [if_pos rfl]
    dsimp only
    rw [mget_mset, if_pos rfl]

/-- C4 witness: the amended statement at SELECT 1 from the initial state. -/
theorem c4_amended_witness :
    ∃ s1, ExecuteCommand initialServer 0 "SELECT" ["1"] =
        .ok s1 [okStatus] true ∧
      (s1.sp : Int) = 1 ∧ s1.store = initialServer.store ∧
      ∀ k v, ExecuteCommand s1 1 "SET" [k, v] =
          .ok (s1.set k v) [okStatus] true ∧
        mget ((s1.set k v).store s1.sp).kv k = some v :=
  c4_amended initialServer 0 1 "1" 1 rfl (by decide)

/-- C5: the code at the failing input — DECR on the absent key hello12345
stores "-2" (not "-1") and writes the replies `:-1` and `:-2` (not just
`:-1`); the missing `return` in the missing-key branch contradicts the
spec and the test expectation `:-1`. -/
theorem c5_decr_missing_key :
    ExecuteCommand initialServer 0 "DECR" ["hello12345"] =
      .ok ((initialServer.set "hello12345" "-1").set "hello12345" "-2")
        [intReply "-1", intReply "-2"] true ∧
    mget ((initialServer.set "hello12345" "-1").set "hello12345"
        "-2").cur.kv "hello12345" = some "-2" :=
  ⟨rfl, rfl⟩

/-- C6, counterexample: GET on an absent key replies the wrong-type error,
not the null bulk `$-1` — `getDBType` answers none, which is not "string",
and the dispatcher turns every non-string answer into the wrong-type
error. -/
theorem c6_counterexample :
    ExecuteCommand initialServer 0 "GET" ["x"] =
      .ok initialServer [wrongTypeError] true ∧
    wrongTypeError ≠ emptyBulkString :=
  ⟨rfl, by decide⟩

/-- C6, amended: GET k replies the bulk string of the stored value when k
holds a string and the wrong-type error otherwise — when k holds a list or
a set, and also when k is absent — and never modifies any database. -/
theorem c6_amended (s : ServerState) (ci : Nat) (k : String) :
    ExecuteCommand s ci "GET" [k] =
      if s.getDBType k = some .tString then
        .ok s [bulkString (s.get k).1] true
      else .ok s [wrongTypeError] true := by
  have he : ExecuteCommand s ci "GET" [k] = execGet s [k] := rfl
  rw [he]
  unfold execGet
  dsimp only
  by_cases hT : s.getDBType k = some .tString
  · rw [if_pos hT, if_neg (not_not_intro hT)]
  · rw [if_neg hT, if_pos hT]

/-- C7, counterexample: MOVE with a non-integer index replies the
integer-parse error, not the claimed integer -4 (the repository's own test
expects the parse error here, so the -4-for-non-int half of the claim is
wrong on the code). -/
theorem c7_counterexample :
    ExecuteCommand initialServer 0 "MOVE" ["key", "fsa"] =
      .ok initialServer [integerOutOfRangeError] true ∧
    integerOutOfRangeError ≠ intReply "-4" :=
  ⟨rfl, by decide⟩

/-- C7, amended: MOVE replies the integer-parse error for a non-integer
index; for an integer index below 0 or above 10 it replies -4 with every
database unchanged; but the range check uses `> NumDBs` instead of
`>= NumDBs`, so index 10 slips past it and the access `store[10]` panics
(the databases-array access is not always in bounds). -/
theorem c7_amended :
    (∀ (s : ServerState) (ci : Nat) (key nstr : String),
      atoi? nstr = none →
        ExecuteCommand s ci "MOVE" [key, nstr] =
          .ok s [integerOutOfRangeError] true) ∧
    (∀ (s : ServerState) (ci : Nat) (key nstr : String) (n : Int),
      atoi? nstr = some n → (n < 0 ∨ n > 10) →
        ExecuteCommand s ci "MOVE" [key, nstr] = .ok s [intReply "-4"] true) ∧
    (∀ (s : ServerState) (ci : Nat) (key nstr : String),
      atoi? nstr = some 10 →
        ExecuteCommand s ci "MOVE" [key, nstr] = .crash) := by
  refine ⟨?_, ?_, ?_⟩
  · intro s ci key nstr hn
    have he : ExecuteCommand s ci "MOVE" [key, nstr] =
        execMove s [key, nstr] := rfl
    rw [he]
    unfold execMove
    dsimp only
    rw [hn]
  · intro s ci key nstr n hn hr
    have he : ExecuteCommand s ci "MOVE" [key, nstr] =
        execMove s [key, nstr] := rfl
    rw [he]
    unfold execMove
    dsimp only
    rw [hn]
    dsimp only
    have hm : s.move key n = some (s, "-4") := by
      unfold ServerState.move
      have hsp : ¬ (n = ((s.sp : Nat) : Int)) := by
        have := s.sp.isLt
        omega
      rw [if_neg hsp, if_pos hr]
    rw [hm]
  · intro s ci key nstr hn
    have he : ExecuteCommand s ci "MOVE" [key, nstr] =
        execMove s [key, nstr] := rfl
    rw [he]
    unfold execMove
    dsimp only
    rw [hn]
    dsimp only
    have hm : s.move key 10 = none := by
      unfold ServerState.move
      have hsp : ¬ ((10 : Int) = ((s.sp : Nat) : Int)) := by
        have := s.sp.isLt
        omega
      rw [if_neg hsp]
      rw [if_neg (by omega : ¬ ((10 : Int) < 0 ∨ (10 : Int) > 10))]
      rw [dif_neg (by omega : ¬ ((10 : Int).toNat < 10))]
    rw [hm]

/-- C7 witness: the amended statement at the three kinds of index. -/
theorem c7_amended_witness :
    ExecuteCommand initialServer 0 "MOVE" ["key", "abc"] =
      .ok initialServer [integerOutOfRangeError] true ∧
    ExecuteCommand initialServer 0 "MOVE" ["key", "11"] =
      .ok initialServer [intReply "-4"] true ∧
    ExecuteCommand initialServer 0 "MOVE" ["key", "10"] = .crash :=
  ⟨c7_amended.1 initialServer 0 "key" "abc" rfl,
   c7_amended.2.1 initialServer 0 "key" "11" 11 rfl (by decide),
   c7_amended.2.2 initialServer 0 "key" "10" rfl⟩

/-- C8: the code at the failing input — a well-framed command array whose
first element is a null bulk (declared length -1).  `readBulkString` parses
the length, allocates length+2 = 1 byte, reads the one available byte, and
then checks `buf[length]`, indexing the buffer at -1: a runtime panic
(modelled as crash), not the claimed "-ERR Invalid Command" reply with the
connection kept open. -/
theorem c8_null_bulk_crash :
    readCommand ("*2\r\n$-1\r\n$4\r\nPING\r\n".toList) = .crash ∧
    readBulkString ("-1\r\n$4\r\nPING\r\n".toList) = .crash :=
  ⟨rfl, rfl⟩

theorem checkSets_none {s : ServerState} {l : List String}
    (h : ∀ k ∈ l, s.getDBType k = some .tSet) : checkSets s l = none := by
  induction l with
  | nil => rfl
  | cons a t ih =>
    unfold checkSets
    rw [h a (by simp)]
    exact ih (fun k hk => h k (by simp [hk]))

theorem mem_foldl_append {α β : Type} (f : α → List β)
    (L : List α) (acc : List β) (x : β) :
    x ∈ L.foldl (fun acc k => acc ++ f k) acc ↔ x ∈ acc ∨ ∃ k ∈ L, x ∈ f k := by
  induction L generalizing acc with
  | nil => simp
  | cons a t ih =>
    simp only [List.foldl_cons, ih, List.mem_append, List.mem_cons]
    constructor
    · rintro (⟨hx | hx⟩ | ⟨k, hk, hx⟩)
      · exact Or.inl hx
      · exact Or.inr ⟨a, Or.inl rfl, hx⟩
      · exact Or.inr ⟨k, Or.inr hk, hx⟩
    · rintro (hx | ⟨k, (rfl | hk), hx⟩)
      · exact Or.inl (Or.inl hx)
      · exact Or.inl (Or.inr hx)
      · exact Or.inr ⟨k, hk, hx⟩

theorem mem_interMembers {d : DB} {keysL : List String} (hne : keysL ≠ [])
    (m : String) :
    m ∈ interMembers d keysL ↔ ∀ k ∈ keysL, m ∈ (mget d.s k).getD [] := by
  unfold interMembers
  dsimp only
  rw [List.mem_filter, List.mem_dedup, mem_foldl_append]
  simp only [List.not_mem_nil, false_or]
  constructor
  · rintro ⟨⟨k0, hk0, hm0⟩, hp⟩
    intro k hk
    have hcnt := of_decide_eq_true hp
    rw [List.countP_eq_length] at hcnt
    have h2 := hcnt k hk
    simpa using h2
  · intro hall
    obtain ⟨k0, hk0⟩ := List.exists_mem_of_ne_nil keysL hne
    refine ⟨⟨k0, hk0, hall k0 hk0⟩, ?_⟩
    rw [decide_eq_true_eq, List.countP_eq_length]
    intro k hk
    simpa using hall k hk

/-- C9, counterexample: with dst already holding a set and k1 a set,
SINTERSTORE dst k1 replies the wrong-type error and stores nothing — the
destination guard `!= "none" || == "set"` rejects every existing
destination, a set included — where the claim promises "+OK". -/
theorem c9_counterexample :
    ((ExecuteCommand ((ExecuteCommand initialServer 0 "SADD"
        ["dst", "x"]).stateD initialServer) 0 "SADD" ["k1", "a"]).stateD
        initialServer).getDBType "dst" = some DTyp.tSet ∧
    ExecuteCommand ((ExecuteCommand ((ExecuteCommand initialServer 0 "SADD"
        ["dst", "x"]).stateD initialServer) 0 "SADD" ["k1", "a"]).stateD
        initialServer) 0 "SINTERSTORE" ["dst", "k1"] =
      .ok ((ExecuteCommand ((ExecuteCommand initialServer 0 "SADD"
        ["dst", "x"]).stateD initialServer) 0 "SADD" ["k1", "a"]).stateD
        initialServer) [wrongTypeError] true ∧
    wrongTypeError ≠ okStatus :=
  ⟨rfl, rfl, by decide⟩

/-- C9, amended: SINTERSTORE replies the wrong-type error whenever the
destination exists, whatever its type (a set included); only when the
destination is absent and every source key holds a set does it store the
intersection — membership in the stored set is membership in every source
set — and reply "+OK". -/
theorem c9_amended :
    (∀ (s : ServerState) (ci : Nat) (dst : String) (srcs : List String),
      srcs ≠ [] → (s.getDBType dst).isSome →
        ExecuteCommand s ci "SINTERSTORE" (dst :: srcs) =
          .ok s [wrongTypeError] true) ∧
    (∀ (s : ServerState) (ci : Nat) (dst : String) (srcs : List String),
      srcs ≠ [] → s.getDBType dst = none →
      (∀ k ∈ srcs, s.getDBType k = some .tSet) →
        ExecuteCommand s ci "SINTERSTORE" (dst :: srcs) =
          .ok (s.sinterstore dst srcs) [okStatus] true ∧
        mget (s.sinterstore dst srcs).cur.s dst =
          some (interMembers s.cur srcs) ∧
        (∀ m, m ∈ interMembers s.cur srcs ↔
          ∀ k ∈ srcs, m ∈ (mget s.cur.s k).getD [])) := by
  constructor
  · intro s ci dst srcs hne hsome
    have he : ExecuteCommand s ci "SINTERSTORE" (dst :: srcs) =
        execSinterstore s (dst :: srcs) := rfl
    rw [he]
    unfold execSinterstore
    dsimp only
    rw [if_neg (by
      simp only [List.length_cons]
      have := List.length_pos.mpr hne
      omega)]
    rw [if_pos (Or.inl (Option.isSome_iff_ne_none.mp hsome))]
  · intro s ci dst srcs hne hnone hsets
    refine ⟨?_, ?_, fun m => mem_interMembers hne m⟩
    · have he : ExecuteCommand s ci "SINTERSTORE" (dst :: srcs) =
          execSinterstore s (dst :: srcs) := rfl
      rw [he]
      unfold execSinterstore
      dsimp only
      rw [if_neg (by
        simp only [List.length_cons]
        have := List.length_pos.mpr hne
        omega)]
      rw [hnone]
      rw [if_neg (by simp)]
      rw [checkSets_none hsets]
    · unfold ServerState.sinterstore
      dsimp only
      rw [cur_setCur]
      dsimp only
      rw [mget_mset, if_pos rfl]

/-- C9 witness: the amended statement at concrete sets. -/
theorem c9_amended_witness :
    (ExecuteCommand ((ExecuteCommand initialServer 0 "SADD"
        ["dst", "x"]).stateD initialServer) 0 "SINTERSTORE" ["dst", "k"] =
      .ok ((ExecuteCommand initialServer 0 "SADD" ["dst", "x"]).stateD
        initialServer) [wrongTypeError] true) ∧
    (ExecuteCommand ((ExecuteCommand initialServer 0 "SADD"
        ["k1", "a"]).stateD initialServer) 0 "SINTERSTORE" ["new", "k1"] =
      .ok (((ExecuteCommand initialServer 0 "SADD" ["k1", "a"]).stateD
        initialServer).sinterstore "new" ["k1"]) [okStatus] true) := by
  constructor
  · exact c9_amended.1 ((ExecuteCommand initialServer 0 "SADD"
      ["dst", "x"]).stateD initialServer) 0 "dst" ["k"] (by decide) rfl
  · exact (c9_amended.2 ((ExecuteCommand initialServer 0 "SADD"
      ["k1", "a"]).stateD initialServer) 0 "new" ["k1"] (by decide) rfl
      (by intro k hk; simp only [List.mem_singleton] at hk; subst hk; rfl)).1

/-- C10, counterexample: SHUTDOWN is a command other than FLUSHDB, FLUSHALL
and LASTSAVE, yet with any argument list it performs the shutdown and never
produces an arity error (it writes no reply at all). -/
theorem c10_counterexample :
    ExecuteCommand initialServer 0 "SHUTDOWN" ["a", "b", "c"] =
      .ok initialServer [] false ∧
    ([] : List String) ≠ [argsError "SHUTDOWN"] :=
  ⟨rfl, by decide⟩

/-- C10, amended: FLUSHDB, FLUSHALL, LASTSAVE and also SHUTDOWN never
produce an arity error — FLUSHDB and FLUSHALL flush and reply "+OK",
LASTSAVE replies an integer, SHUTDOWN writes nothing — while every other
recognized command rejects at least one argument count with the arity
error. -/
theorem c10_amended :
    (∀ (s : ServerState) (ci : Nat) (args : List String),
      ExecuteCommand s ci "FLUSHDB" args = .ok s.flushDB [okStatus] true) ∧
    (∀ (s : ServerState) (ci : Nat) (args : List String),
      ExecuteCommand s ci "FLUSHALL" args = .ok s.flushall [okStatus] true) ∧
    (∀ (s : ServerState) (ci : Nat) (args : List String),
      ExecuteCommand s ci "LASTSAVE" args =
        .ok s [intReply (toString s.lastsave)] true) ∧
    (∀ (s : ServerState) (ci : Nat) (args : List String),
      ExecuteCommand s ci "SHUTDOWN" args = .ok s [] false) ∧
    (∀ cmd ∈ arityCheckedCommands, ∀ (s : ServerState) (ci : Nat),
      ExecuteCommand s ci cmd (badArity cmd) = .ok s [argsError cmd] true) := by
  refine ⟨fun s ci args => rfl, fun s ci args => rfl, fun s ci args => rfl,
    fun s ci args => rfl, ?_⟩
  intro cmd hmem s ci
  fin_cases hmem <;> rfl

/-- C10 witness: the amended statement at concrete dispatches. -/
theorem c10_amended_witness :
    ExecuteCommand initialServer 0 "FLUSHDB" ["extra", "args"] =
      .ok initialServer.flushDB [okStatus] true ∧
    ExecuteCommand initialServer 3 "GET" (badArity "GET") =
      .ok initialServer [argsError "GET"] true :=
  ⟨c10_amended.1 initialServer 0 ["extra", "args"],
   c10_amended.2.2.2.2 "GET" (by decide) initialServer 3⟩

end Rdc
